import Mathlib

/-!
Verification of the terminal-MCP core against its specification.

This file is a shallow embedding, in Lean 4, of the parts of the
`terminal-mcp` crates that the specification's claims are about:

* the core data model (`crates/terminal-mcp-core/src/{geometry,cell,element,key}.rs`),
* the terminal grid and the VT parser's event handlers
  (`crates/terminal-mcp-emulator/src/{grid,parser}.rs`),
* the detection pipeline and the border / menu / progress detectors
  (`crates/terminal-mcp-detector/src/{detection,detectors/*}.rs`),
* the navigation computer, session manager and wait-condition check
  (`crates/terminal-mcp-session/src/{navigation,manager,wait}.rs`).

Rust `u16`/`usize` values are modelled as `Nat`; where the source performs
arithmetic that can overflow in a way that matters, the reduction modulo the
machine width is written out explicitly.  Fallible operations return
`Except Error` exactly as the source returns `Result`.
-/

namespace TerminalMcp

/-! ## Geometry (`terminal-mcp-core/src/geometry.rs`) -/

/-- Position in the terminal grid (row, column), zero-based. -/
structure Position where
  row : Nat
  col : Nat
deriving DecidableEq, Repr

/-- Dimensions of a terminal or region. -/
structure Dimensions where
  rows : Nat
  cols : Nat
deriving DecidableEq, Repr

/-- Total cell count (`rows * cols`). -/
def Dimensions.cellCount (d : Dimensions) : Nat :=
  d.rows * d.cols

/-- Bounding box for a terminal region. -/
structure Bounds where
  row : Nat
  col : Nat
  width : Nat
  height : Nat
deriving DecidableEq, Repr

/-- Whether a position is contained within these bounds (`Bounds::contains`). -/
def Bounds.containsPos (b : Bounds) (p : Position) : Bool :=
  decide (b.row ≤ p.row) && decide (p.row < b.row + b.height) &&
    decide (b.col ≤ p.col) && decide (p.col < b.col + b.width)

/-- Whether two bounds intersect (`Bounds::intersects`). -/
def Bounds.intersects (b other : Bounds) : Bool :=
  !(decide (b.row + b.height ≤ other.row) ||
    decide (other.row + other.height ≤ b.row) ||
    decide (b.col + b.width ≤ other.col) ||
    decide (other.col + other.width ≤ b.col))

theorem Bounds.intersects_comm (a b : Bounds) :
    a.intersects b = b.intersects a := by
  rw [Bool.eq_iff_iff]
  simp only [Bounds.intersects, Bool.not_eq_true', Bool.or_eq_false_iff,
    decide_eq_false_iff_not]
  omega

/-! ## Cells (`terminal-mcp-core/src/cell.rs`) -/

/-- Terminal color: default, 16 ANSI colors, 256-palette index, or true RGB. -/
inductive Color where
  | default
  | black | red | green | yellow | blue | magenta | cyan | white
  | brightBlack | brightRed | brightGreen | brightYellow
  | brightBlue | brightMagenta | brightCyan | brightWhite
  | indexed (idx : Nat)
  | rgb (r g b : Nat)
deriving DecidableEq, Repr

/-- Text attributes for a terminal cell: eight independent boolean flags. -/
structure CellAttributes where
  bold : Bool := false
  dim : Bool := false
  italic : Bool := false
  underline : Bool := false
  blink : Bool := false
  reverse : Bool := false
  hidden : Bool := false
  strikethrough : Bool := false
deriving DecidableEq, Repr

/-- Default attributes: everything off. -/
def CellAttributes.default : CellAttributes := {}

/-- Single character cell in the terminal grid. -/
structure Cell where
  character : Char
  fg : Color
  bg : Color
  attrs : CellAttributes
deriving DecidableEq, Repr

/-- Default cell: a space with default colors and attributes. -/
def Cell.default : Cell :=
  { character := ' ', fg := .default, bg := .default, attrs := {} }

/-! ## Elements (`terminal-mcp-core/src/element.rs`) -/

/-- Menu item within a menu element. -/
structure MenuItem where
  refId : String
  text : String
  selected : Bool
deriving DecidableEq, Repr

/-- Detected UI element within the terminal (the TST node variants). -/
inductive Element where
  | menu (refId : String) (bounds : Bounds) (items : List MenuItem) (selected : Nat)
  | table (refId : String) (bounds : Bounds) (headers : List String) (rows : List (List String))
  | input (refId : String) (bounds : Bounds) (value : String) (cursorPos : Nat)
  | button (refId : String) (bounds : Bounds) (label : String)
  | progressBar (refId : String) (bounds : Bounds) (percent : Nat)
  | checkbox (refId : String) (bounds : Bounds) (label : String) (checked : Bool)
  | statusBar (refId : String) (bounds : Bounds) (content : String)
  | border (refId : String) (bounds : Bounds) (title : Option String) (children : List String)
  | text (refId : String) (bounds : Bounds) (content : String)
deriving DecidableEq, Repr

/-- Reference id of an element (`Element::ref_id`). -/
def Element.refId : Element → String
  | .menu r _ _ _ => r
  | .table r _ _ _ => r
  | .input r _ _ _ => r
  | .button r _ _ => r
  | .progressBar r _ _ => r
  | .checkbox r _ _ _ => r
  | .statusBar r _ _ => r
  | .border r _ _ _ => r
  | .text r _ _ => r

/-- Element type name (`Element::type_name`). -/
def Element.typeName : Element → String
  | .menu .. => "menu"
  | .table .. => "table"
  | .input .. => "input"
  | .button .. => "button"
  | .progressBar .. => "progress_bar"
  | .checkbox .. => "checkbox"
  | .statusBar .. => "status_bar"
  | .border .. => "border"
  | .text .. => "text"

/-- Bounds of an element (`Element::bounds`). -/
def Element.boundsOf : Element → Bounds
  | .menu _ b _ _ => b
  | .table _ b _ _ => b
  | .input _ b _ _ => b
  | .button _ b _ => b
  | .progressBar _ b _ => b
  | .checkbox _ b _ _ => b
  | .statusBar _ b _ => b
  | .border _ b _ _ => b
  | .text _ b _ => b

/-- Terminal State Tree: the structured snapshot of terminal content. -/
structure TerminalStateTree where
  sessionId : String
  dimensions : Dimensions
  cursor : Position
  timestamp : String
  elements : List Element
  rawText : String
  ansiBuffer : Option String
deriving DecidableEq, Repr

/-- Find an element by reference id (`TerminalStateTree::find_element`). -/
def TerminalStateTree.findElement (t : TerminalStateTree) (refId : String) : Option Element :=
  t.elements.find? (fun e => e.refId == refId)

/-! ## Errors (`terminal-mcp-core/src/error.rs`, the variants the claims use) -/

/-- Error taxonomy (the variants reachable from the embedded operations). -/
inductive Error where
  | sessionNotFound (id : Nat)
  | elementNotFound (refId : String)
  | ptyError (msg : String)
  | sessionLimitReached (max : Nat)
  | invalidInput (msg : String)
deriving DecidableEq, Repr

/-! ## Key model (`terminal-mcp-core/src/key.rs`) -/

/-- Keyboard key for terminal input. -/
inductive Key where
  | char (c : Char)
  | up | down | left | right | home | «end» | pageUp | pageDown
  | enter | tab | escape | backspace | delete | space | insert
  | f1 | f2 | f3 | f4 | f5 | f6 | f7 | f8 | f9 | f10 | f11 | f12
  | ctrl (c : Char)
  | alt (c : Char)
  | shift (k : Key)
  | ctrlAlt (c : Char)
deriving DecidableEq, Repr

theorem length_dropWhile_le (p : Char → Bool) (l : List Char) :
    (l.dropWhile p).length ≤ l.length :=
  (List.dropWhile_suffix p).sublist.length_le

/-- Leading-whitespace strip on a character list. -/
def trimLeftChars (l : List Char) : List Char :=
  l.dropWhile Char.isWhitespace

/-- Whitespace trim on both ends of a character list (Rust `str::trim`). -/
def trimChars (l : List Char) : List Char :=
  ((trimLeftChars l).reverse.dropWhile Char.isWhitespace).reverse

/-- Remove a literal leading pattern, or fail (Rust `str::strip_prefix`). -/
def stripLit : List Char → List Char → Option (List Char)
  | [], rest => some rest
  | _, [] => none
  | p :: ps, c :: cs => if p = c then stripLit ps cs else none

theorem stripLit_length {pat l rest : List Char} (h : stripLit pat l = some rest) :
    rest.length + pat.length = l.length := by
  induction pat generalizing l with
  | nil => simp [stripLit] at h; simp [h]
  | cons p ps ih =>
    cases l with
    | nil => simp [stripLit] at h
    | cons c cs =>
      simp only [stripLit] at h
      split at h
      · have := ih h
        simp [List.length_cons]
        omega
      · exact absurd h (by simp)

/-- Named-key table of `Key::parse` (the non-modifier arm of the `match`). -/
def namedKey? (s : List Char) : Option Key :=
  if s = "Enter".data ∨ s = "Return".data then some .enter
  else if s = "Tab".data then some .tab
  else if s = "Escape".data ∨ s = "Esc".data then some .escape
  else if s = "Backspace".data then some .backspace
  else if s = "Delete".data ∨ s = "Del".data then some .delete
  else if s = "Space".data then some .space
  else if s = "Insert".data ∨ s = "Ins".data then some .insert
  else if s = "Up".data then some .up
  else if s = "Down".data then some .down
  else if s = "Left".data then some .left
  else if s = "Right".data then some .right
  else if s = "Home".data then some .home
  else if s = "End".data then some .end
  else if s = "PageUp".data ∨ s = "PgUp".data then some .pageUp
  else if s = "PageDown".data ∨ s = "PgDn".data then some .pageDown
  else if s = "F1".data then some .f1
  else if s = "F2".data then some .f2
  else if s = "F3".data then some .f3
  else if s = "F4".data then some .f4
  else if s = "F5".data then some .f5
  else if s = "F6".data then some .f6
  else if s = "F7".data then some .f7
  else if s = "F8".data then some .f8
  else if s = "F9".data then some .f9
  else if s = "F10".data then some .f10
  else if s = "F11".data then some .f11
  else if s = "F12".data then some .f12
  else none

/-- ASCII lowercase of a character (Rust `char::to_ascii_lowercase`). -/
def asciiLowerChar (c : Char) : Char :=
  if 'A' ≤ c ∧ c ≤ 'Z' then Char.ofNat (c.toNat + 32) else c

/-- Key parsing on a character list (`Key::parse`): strip a `Ctrl+` / `Alt+` /
`Shift+` marker, fall back to the named-key table, then to a single
character.  `Shift+` recurses on the remainder; the `fuel` argument only
makes the recursion structural and never runs out, since stripping
`Shift+` shortens the input by six characters. -/
def parseCharsFuel : Nat → List Char → Except Error Key
  | 0, _ => .error (.invalidInput "Unknown key: ")
  | fuel + 1, s =>
    let t := trimChars s
    match stripLit "Ctrl+".data t with
    | some rest =>
      match rest.head? with
      | some ch => .ok (.ctrl (asciiLowerChar ch))
      | none => .error (.invalidInput ("Invalid Ctrl+ key: " ++ String.mk t))
    | none =>
      match stripLit "Alt+".data t with
      | some rest =>
        match rest.head? with
        | some ch => .ok (.alt ch)
        | none => .error (.invalidInput ("Invalid Alt+ key: " ++ String.mk t))
      | none =>
        match stripLit "Shift+".data t with
        | some rest =>
          match parseCharsFuel fuel rest with
          | .ok inner => .ok (.shift inner)
          | .error e => .error e
        | none =>
          match namedKey? t with
          | some k => .ok k
          | none =>
            match t with
            | [c] => .ok (.char c)
            | _ => .error (.invalidInput ("Unknown key: " ++ String.mk t))

/-- Parse a key from its textual form (`Key::parse`). -/
def Key.parse (s : String) : Except Error Key :=
  parseCharsFuel (s.data.length + 1) s.data

/-- UTF-8 encoding of one character, as byte values. -/
def utf8Bytes (c : Char) : List Nat :=
  let n := c.toNat
  if n < 0x80 then [n]
  else if n < 0x800 then
    [0xC0 + n / 64, 0x80 + n % 64]
  else if n < 0x10000 then
    [0xE0 + n / 4096, 0x80 + n / 64 % 64, 0x80 + n % 64]
  else
    [0xF0 + n / 262144, 0x80 + n / 4096 % 64, 0x80 + n / 64 % 64, 0x80 + n % 64]

/-- Byte of the `Ctrl` encoding: `(c as u8).to_ascii_lowercase() - b'a' + 1`,
with `u8` wrapping arithmetic written out. -/
def ctrlCode (c : Char) : Nat :=
  let x := c.toNat % 256
  let lower := if 65 ≤ x ∧ x ≤ 90 then x + 32 else x
  (lower + 160) % 256

/-- Encode a key to its terminal byte sequence (`Key::to_escape_sequence`). -/
def Key.toEscapeSequence : Key → List Nat
  | .char c => utf8Bytes c
  | .enter => [0x0D]
  | .tab => [0x09]
  | .escape => [0x1B]
  | .backspace => [0x7F]
  | .delete => [0x1B, 0x5B, 0x33, 0x7E]
  | .space => [0x20]
  | .insert => [0x1B, 0x5B, 0x32, 0x7E]
  | .up => [0x1B, 0x5B, 0x41]
  | .down => [0x1B, 0x5B, 0x42]
  | .right => [0x1B, 0x5B, 0x43]
  | .left => [0x1B, 0x5B, 0x44]
  | .home => [0x1B, 0x5B, 0x48]
  | .«end» => [0x1B, 0x5B, 0x46]
  | .pageUp => [0x1B, 0x5B, 0x35, 0x7E]
  | .pageDown => [0x1B, 0x5B, 0x36, 0x7E]
  | .f1 => [0x1B, 0x4F, 0x50]
  | .f2 => [0x1B, 0x4F, 0x51]
  | .f3 => [0x1B, 0x4F, 0x52]
  | .f4 => [0x1B, 0x4F, 0x53]
  | .f5 => [0x1B, 0x5B, 0x31, 0x35, 0x7E]
  | .f6 => [0x1B, 0x5B, 0x31, 0x37, 0x7E]
  | .f7 => [0x1B, 0x5B, 0x31, 0x38, 0x7E]
  | .f8 => [0x1B, 0x5B, 0x31, 0x39, 0x7E]
  | .f9 => [0x1B, 0x5B, 0x32, 0x30, 0x7E]
  | .f10 => [0x1B, 0x5B, 0x32, 0x31, 0x7E]
  | .f11 => [0x1B, 0x5B, 0x32, 0x33, 0x7E]
  | .f12 => [0x1B, 0x5B, 0x32, 0x34, 0x7E]
  | .ctrl c => [ctrlCode c]
  | .alt c => 0x1B :: utf8Bytes c
  | .shift inner =>
    match inner with
    | .tab => [0x1B, 0x5B, 0x5A]
    | .up => [0x1B, 0x5B, 0x31, 0x3B, 0x32, 0x41]
    | .down => [0x1B, 0x5B, 0x31, 0x3B, 0x32, 0x42]
    | .right => [0x1B, 0x5B, 0x31, 0x3B, 0x32, 0x43]
    | .left => [0x1B, 0x5B, 0x31, 0x3B, 0x32, 0x44]
    | k => k.toEscapeSequence
  | .ctrlAlt c => [0x1B, ctrlCode c]

/-- Display form of a key (the `Display` impl for `Key`). -/
def Key.display : Key → String
  | .char c => String.mk [c]
  | .up => "Up"
  | .down => "Down"
  | .left => "Left"
  | .right => "Right"
  | .home => "Home"
  | .«end» => "End"
  | .pageUp => "PageUp"
  | .pageDown => "PageDown"
  | .enter => "Enter"
  | .tab => "Tab"
  | .escape => "Escape"
  | .backspace => "Backspace"
  | .delete => "Delete"
  | .space => "Space"
  | .insert => "Insert"
  | .f1 => "F1"
  | .f2 => "F2"
  | .f3 => "F3"
  | .f4 => "F4"
  | .f5 => "F5"
  | .f6 => "F6"
  | .f7 => "F7"
  | .f8 => "F8"
  | .f9 => "F9"
  | .f10 => "F10"
  | .f11 => "F11"
  | .f12 => "F12"
  | .ctrl c => "Ctrl+" ++ String.mk [c]
  | .alt c => "Alt+" ++ String.mk [c]
  | .shift k => "Shift+" ++ k.display
  | .ctrlAlt c => "Ctrl+Alt+" ++ String.mk [c]

end TerminalMcp

namespace TerminalMcp

/-! ## The documented key list and the spec's byte table (spec section 4.3)

`specEncode` is written from the specification's words, independently of
`Key.toEscapeSequence`, so that the two can be compared. -/

/-- Lowercase ASCII letters, the characters the spec's modifier-wrapped keys
range over (`Ctrl+` normalizes to lowercase on parse). -/
def lowercaseLetters : List Char :=
  "abcdefghijklmnopqrstuvwxyz".data

/-- The named non-modifier keys of the documented list: navigation, action
and function keys. -/
def baseNamedKeys : List Key :=
  [.up, .down, .left, .right, .home, .«end», .pageUp, .pageDown,
   .enter, .tab, .escape, .backspace, .delete, .space, .insert,
   .f1, .f2, .f3, .f4, .f5, .f6, .f7, .f8, .f9, .f10, .f11, .f12]

/-- The documented key list: named keys plus the modifier-wrapped keys. -/
def documentedKeys : List Key :=
  baseNamedKeys ++ lowercaseLetters.map Key.ctrl ++ lowercaseLetters.map Key.alt
    ++ baseNamedKeys.map Key.shift ++ lowercaseLetters.map Key.ctrlAlt

/-- Spec-side `Ctrl` byte: `lowercase(c) − 'a' + 1`. -/
def specCtrlCode (c : Char) : Nat :=
  (asciiLowerChar c).toNat - 97 + 1

/-- Byte table of spec section 4.3, written from the spec's words. -/
def specEncode : Key → List Nat
  | .char c => utf8Bytes c
  | .enter => [0x0D]
  | .tab => [0x09]
  | .escape => [0x1B]
  | .backspace => [0x7F]
  | .space => [0x20]
  | .delete => [0x1B, 0x5B, 0x33, 0x7E]
  | .insert => [0x1B, 0x5B, 0x32, 0x7E]
  | .up => [0x1B, 0x5B, 0x41]
  | .down => [0x1B, 0x5B, 0x42]
  | .right => [0x1B, 0x5B, 0x43]
  | .left => [0x1B, 0x5B, 0x44]
  | .home => [0x1B, 0x5B, 0x48]
  | .«end» => [0x1B, 0x5B, 0x46]
  | .pageUp => [0x1B, 0x5B, 0x35, 0x7E]
  | .pageDown => [0x1B, 0x5B, 0x36, 0x7E]
  | .f1 => [0x1B, 0x4F, 0x50]
  | .f2 => [0x1B, 0x4F, 0x51]
  | .f3 => [0x1B, 0x4F, 0x52]
  | .f4 => [0x1B, 0x4F, 0x53]
  | .f5 => [0x1B, 0x5B, 0x31, 0x35, 0x7E]
  | .f6 => [0x1B, 0x5B, 0x31, 0x37, 0x7E]
  | .f7 => [0x1B, 0x5B, 0x31, 0x38, 0x7E]
  | .f8 => [0x1B, 0x5B, 0x31, 0x39, 0x7E]
  | .f9 => [0x1B, 0x5B, 0x32, 0x30, 0x7E]
  | .f10 => [0x1B, 0x5B, 0x32, 0x31, 0x7E]
  | .f11 => [0x1B, 0x5B, 0x32, 0x33, 0x7E]
  | .f12 => [0x1B, 0x5B, 0x32, 0x34, 0x7E]
  | .ctrl c => [specCtrlCode c]
  | .alt c => 0x1B :: utf8Bytes c
  | .shift inner =>
    match inner with
    | .tab => [0x1B, 0x5B, 0x5A]
    | .up => [0x1B, 0x5B, 0x31, 0x3B, 0x32, 0x41]
    | .down => [0x1B, 0x5B, 0x31, 0x3B, 0x32, 0x42]
    | .right => [0x1B, 0x5B, 0x31, 0x3B, 0x32, 0x43]
    | .left => [0x1B, 0x5B, 0x31, 0x3B, 0x32, 0x44]
    | k => specEncode k
  | .ctrlAlt c => [0x1B, specCtrlCode c]

/-- Whether a key is a `CtrlAlt` wrapper. -/
def Key.isCtrlAlt : Key → Bool
  | .ctrlAlt _ => true
  | _ => false

instance {ε α : Type} [DecidableEq ε] [DecidableEq α] : DecidableEq (Except ε α) := fun a b =>
  match a, b with
  | .ok x, .ok y =>
    if h : x = y then isTrue (h ▸ rfl) else isFalse (fun hh => h (Except.ok.inj hh))
  | .error x, .error y =>
    if h : x = y then isTrue (h ▸ rfl) else isFalse (fun hh => h (Except.error.inj hh))
  | .ok _, .error _ => isFalse (fun hh => Except.noConfusion hh)
  | .error _, .ok _ => isFalse (fun hh => Except.noConfusion hh)

example :
    documentedKeys.all (fun k =>
      (k.isCtrlAlt || decide (Key.parse (Key.display k) = .ok k)) &&
        decide (k.toEscapeSequence = specEncode k)) = true := by decide

example : Key.parse (Key.display (.ctrlAlt 'c')) = .ok (.ctrl 'a') := by decide

example :
    (documentedKeys.all (fun k => decide (Key.parse (Key.display k) = .ok k))) = false := by decide

end TerminalMcp

namespace TerminalMcp

/-! ## Grid (`terminal-mcp-emulator/src/grid.rs`) -/

/-- Cursor visual style. -/
inductive CursorStyle where
  | block
  | underline
  | bar
deriving DecidableEq, Repr

/-- Cursor state. -/
structure Cursor where
  position : Position
  visible : Bool
  style : CursorStyle
deriving DecidableEq, Repr

/-- Initial cursor: origin, visible, block. -/
def Cursor.init : Cursor :=
  { position := ⟨0, 0⟩, visible := true, style := .block }

/-- Terminal grid state buffer: row-major cell storage plus cursor,
saved cursor, scroll region and current SGR state. -/
structure Grid where
  cells : List Cell
  dimensions : Dimensions
  cursor : Cursor
  savedCursor : Option Cursor
  scrollRegion : Option (Nat × Nat)
  currentAttrs : CellAttributes
  currentFg : Color
  currentBg : Color
deriving DecidableEq, Repr

/-- Create a new grid with all cells defaulted (`Grid::new`). -/
def Grid.new (d : Dimensions) : Grid :=
  { cells := List.replicate d.cellCount Cell.default
    dimensions := d
    cursor := Cursor.init
    savedCursor := none
    scrollRegion := none
    currentAttrs := {}
    currentFg := .default
    currentBg := .default }

/-- Cell at a position, `none` iff out of bounds (`Grid::cell`). -/
def Grid.cellAt (g : Grid) (row col : Nat) : Option Cell :=
  if row < g.dimensions.rows ∧ col < g.dimensions.cols then
    g.cells.get? (row * g.dimensions.cols + col)
  else
    none

/-- Write a cell at a position if it is in bounds; out-of-bounds writes are
dropped, as in the source's `if let Some(cell) = self.cell_mut(..)`. -/
def Grid.setCell (g : Grid) (row col : Nat) (cell : Cell) : Grid :=
  if row < g.dimensions.rows ∧ col < g.dimensions.cols then
    { g with cells := g.cells.set (row * g.dimensions.cols + col) cell }
  else
    g

/-- Save the cursor state (`Grid::save_cursor`). -/
def Grid.saveCursor (g : Grid) : Grid :=
  { g with savedCursor := some g.cursor }

/-- Restore the saved cursor state; no-op when nothing is saved
(`Grid::restore_cursor`, which `take`s the saved value). -/
def Grid.restoreCursor (g : Grid) : Grid :=
  match g.savedCursor with
  | some saved => { g with cursor := saved, savedCursor := none }
  | none => g

/-- Resize the grid (`Grid::resize`): allocate a fresh default buffer of the
new size, copy the top-left `min(old, new)` rectangle (written here as one
row-major `range` map: index `idx` holds row `idx / cols` and column
`idx % cols`), then clamp each cursor coordinate when the corresponding new
dimension is positive. -/
def Grid.resize (g : Grid) (nd : Dimensions) : Grid :=
  let copyRows := min g.dimensions.rows nd.rows
  let copyCols := min g.dimensions.cols nd.cols
  let newCells := (List.range (nd.rows * nd.cols)).map (fun idx =>
    let r := idx / nd.cols
    let c := idx % nd.cols
    if r < copyRows ∧ c < copyCols then
      (g.cells.get? (r * g.dimensions.cols + c)).getD Cell.default
    else
      Cell.default)
  let row' := if 0 < nd.rows then min g.cursor.position.row (nd.rows - 1)
              else g.cursor.position.row
  let col' := if 0 < nd.cols then min g.cursor.position.col (nd.cols - 1)
              else g.cursor.position.col
  { g with
      cells := newCells
      dimensions := nd
      cursor := { g.cursor with position := ⟨row', col'⟩ } }

/-- Clear the entire grid (`Grid::clear`). -/
def Grid.clearAll (g : Grid) : Grid :=
  { g with cells := g.cells.map (fun _ => Cell.default) }

/-- Write the default cell at each listed (row, col) position. -/
def Grid.clearCellList (g : Grid) (ps : List (Nat × Nat)) : Grid :=
  ps.foldl (fun g rc => g.setCell rc.1 rc.2 Cell.default) g

/-- Clear a rectangular region (`Grid::clear_region`). -/
def Grid.clearRegion (g : Grid) (b : Bounds) : Grid :=
  g.clearCellList ((List.range' b.row b.height).flatMap (fun r =>
    (List.range' b.col b.width).map (fun c => (r, c))))

/-! ## Parser event handlers (`terminal-mcp-emulator/src/parser.rs`)

The VTE state machine delivers `print`, `execute` and `csi_dispatch`
events to the grid-owning `Parser`; the handlers below are those event
handlers.  CSI parameters are modelled as the delivered list of parameter
groups; `p[0]` is the group's first value. -/

/-- Move cursor forward by n columns, clamped (`Parser::cursor_forward`). -/
def Grid.cursorForward (g : Grid) (n : Nat) : Grid :=
  { g with cursor := { g.cursor with position :=
      { g.cursor.position with
          col := min (g.cursor.position.col + n) (g.dimensions.cols - 1) } } }

/-- Move cursor backward by n columns, saturating (`Parser::cursor_backward`). -/
def Grid.cursorBackward (g : Grid) (n : Nat) : Grid :=
  { g with cursor := { g.cursor with position :=
      { g.cursor.position with col := g.cursor.position.col - n } } }

/-- Move cursor down by n rows, clamped (`Parser::cursor_down`). -/
def Grid.cursorDown (g : Grid) (n : Nat) : Grid :=
  { g with cursor := { g.cursor with position :=
      { g.cursor.position with
          row := min (g.cursor.position.row + n) (g.dimensions.rows - 1) } } }

/-- Move cursor up by n rows, saturating (`Parser::cursor_up`). -/
def Grid.cursorUp (g : Grid) (n : Nat) : Grid :=
  { g with cursor := { g.cursor with position :=
      { g.cursor.position with row := g.cursor.position.row - n } } }

/-- First value of a CSI parameter group. -/
def groupVal (p : List Nat) : Nat :=
  p.headD 0

/-- First parameter, with a default when none was sent. -/
def paramFirst (params : List (List Nat)) (d : Nat) : Nat :=
  match params.head? with
  | some p => groupVal p
  | none => d

/-- SGR processing (`Parser::process_sgr`), as a function on the
`(attributes, foreground, background)` state the source mutates.  Color
parameters are reduced `mod 256` where the source casts `as u8`. -/
def processSgr (st : CellAttributes × Color × Color) : List (List Nat) → CellAttributes × Color × Color
  | [] => st
  | p :: rest =>
    let code := groupVal p
    let attrs := st.1
    let fg := st.2.1
    let bg := st.2.2
    if code = 0 then processSgr ({}, .default, .default) rest
    else if code = 1 then processSgr ({ attrs with bold := true }, fg, bg) rest
    else if code = 2 then processSgr ({ attrs with dim := true }, fg, bg) rest
    else if code = 3 then processSgr ({ attrs with italic := true }, fg, bg) rest
    else if code = 4 then processSgr ({ attrs with underline := true }, fg, bg) rest
    else if code = 5 then processSgr ({ attrs with blink := true }, fg, bg) rest
    else if code = 7 then processSgr ({ attrs with reverse := true }, fg, bg) rest
    else if code = 8 then processSgr ({ attrs with hidden := true }, fg, bg) rest
    else if code = 9 then processSgr ({ attrs with strikethrough := true }, fg, bg) rest
    else if code = 22 then processSgr ({ attrs with bold := false, dim := false }, fg, bg) rest
    else if code = 23 then processSgr ({ attrs with italic := false }, fg, bg) rest
    else if code = 24 then processSgr ({ attrs with underline := false }, fg, bg) rest
    else if code = 25 then processSgr ({ attrs with blink := false }, fg, bg) rest
    else if code = 27 then processSgr ({ attrs with reverse := false }, fg, bg) rest
    else if code = 28 then processSgr ({ attrs with hidden := false }, fg, bg) rest
    else if code = 29 then processSgr ({ attrs with strikethrough := false }, fg, bg) rest
    else if code = 30 then processSgr (attrs, .black, bg) rest
    else if code = 31 then processSgr (attrs, .red, bg) rest
    else if code = 32 then processSgr (attrs, .green, bg) rest
    else if code = 33 then processSgr (attrs, .yellow, bg) rest
    else if code = 34 then processSgr (attrs, .blue, bg) rest
    else if code = 35 then processSgr (attrs, .magenta, bg) rest
    else if code = 36 then processSgr (attrs, .cyan, bg) rest
    else if code = 37 then processSgr (attrs, .white, bg) rest
    else if code = 39 then processSgr (attrs, .default, bg) rest
    else if code = 40 then processSgr (attrs, fg, .black) rest
    else if code = 41 then processSgr (attrs, fg, .red) rest
    else if code = 42 then processSgr (attrs, fg, .green) rest
    else if code = 43 then processSgr (attrs, fg, .yellow) rest
    else if code = 44 then processSgr (attrs, fg, .blue) rest
    else if code = 45 then processSgr (attrs, fg, .magenta) rest
    else if code = 46 then processSgr (attrs, fg, .cyan) rest
    else if code = 47 then processSgr (attrs, fg, .white) rest
    else if code = 49 then processSgr (attrs, fg, .default) rest
    else if code = 90 then processSgr (attrs, .brightBlack, bg) rest
    else if code = 91 then processSgr (attrs, .brightRed, bg) rest
    else if code = 92 then processSgr (attrs, .brightGreen, bg) rest
    else if code = 93 then processSgr (attrs, .brightYellow, bg) rest
    else if code = 94 then processSgr (attrs, .brightBlue, bg) rest
    else if code = 95 then processSgr (attrs, .brightMagenta, bg) rest
    else if code = 96 then processSgr (attrs, .brightCyan, bg) rest
    else if code = 97 then processSgr (attrs, .brightWhite, bg) rest
    else if code = 100 then processSgr (attrs, fg, .brightBlack) rest
    else if code = 101 then processSgr (attrs, fg, .brightRed) rest
    else if code = 102 then processSgr (attrs, fg, .brightGreen) rest
    else if code = 103 then processSgr (attrs, fg, .brightYellow) rest
    else if code = 104 then processSgr (attrs, fg, .brightBlue) rest
    else if code = 105 then processSgr (attrs, fg, .brightMagenta) rest
    else if code = 106 then processSgr (attrs, fg, .brightCyan) rest
    else if code = 107 then processSgr (attrs, fg, .brightWhite) rest
    else if code = 38 then
      match rest with
      | [] => (attrs, fg, bg)
      | next :: rest2 =>
        if groupVal next = 5 then
          match rest2 with
          | [] => (attrs, fg, bg)
          | cp :: rest3 => processSgr (attrs, .indexed (groupVal cp % 256), bg) rest3
        else if groupVal next = 2 then
          match rest2 with
          | r :: gr :: b :: rest5 =>
            processSgr (attrs, .rgb (groupVal r % 256) (groupVal gr % 256) (groupVal b % 256), bg) rest5
          | _ => (attrs, fg, bg)
        else processSgr (attrs, fg, bg) rest2
    else if code = 48 then
      match rest with
      | [] => (attrs, fg, bg)
      | next :: rest2 =>
        if groupVal next = 5 then
          match rest2 with
          | [] => (attrs, fg, bg)
          | cp :: rest3 => processSgr (attrs, fg, .indexed (groupVal cp % 256)) rest3
        else if groupVal next = 2 then
          match rest2 with
          | r :: gr :: b :: rest5 =>
            processSgr (attrs, fg, .rgb (groupVal r % 256) (groupVal gr % 256) (groupVal b % 256)) rest5
          | _ => (attrs, fg, bg)
        else processSgr (attrs, fg, bg) rest2
    else processSgr (attrs, fg, bg) rest


/-- Print one character at the cursor with the current SGR state, then
advance the cursor with clamped last-row wrap (`Perform::print`). -/
def Grid.printChar (g : Grid) (ch : Char) : Grid :=
  let pos := g.cursor.position
  let dims := g.dimensions
  let g1 := g.setCell pos.row pos.col
    { character := ch, fg := g.currentFg, bg := g.currentBg, attrs := g.currentAttrs }
  let newCol := pos.col + 1
  if newCol ≥ dims.cols then
    { g1 with cursor := { g1.cursor with position := ⟨min (pos.row + 1) (dims.rows - 1), 0⟩ } }
  else
    { g1 with cursor := { g1.cursor with position := { pos with col := newCol } } }

/-- Execute a C0 control byte (`Perform::execute`): BS, HT, LF, CR; the rest
are ignored. -/
def Grid.executeCtrl (g : Grid) (byte : Nat) : Grid :=
  if byte = 0x08 then g.cursorBackward 1
  else if byte = 0x09 then
    { g with cursor := { g.cursor with position :=
        { g.cursor.position with
            col := min ((g.cursor.position.col / 8 + 1) * 8) (g.dimensions.cols - 1) } } }
  else if byte = 0x0A then g.cursorDown 1
  else if byte = 0x0D then
    { g with cursor := { g.cursor with position := { g.cursor.position with col := 0 } } }
  else g

/-- Erase in display (`CSI J`). -/
def Grid.eraseInDisplay (g : Grid) (mode : Nat) : Grid :=
  let pos := g.cursor.position
  let dims := g.dimensions
  if mode = 0 then
    g.clearCellList
      ((List.range' pos.col (dims.cols - pos.col)).map (fun c => (pos.row, c)) ++
        (List.range' (pos.row + 1) (dims.rows - (pos.row + 1))).flatMap (fun r =>
          (List.range dims.cols).map (fun c => (r, c))))
  else if mode = 1 then
    g.clearCellList
      ((List.range pos.row).flatMap (fun r => (List.range dims.cols).map (fun c => (r, c))) ++
        (List.range (pos.col + 1)).map (fun c => (pos.row, c)))
  else if mode = 2 ∨ mode = 3 then
    g.clearAll
  else g

/-- Erase in line (`CSI K`). -/
def Grid.eraseInLine (g : Grid) (mode : Nat) : Grid :=
  let pos := g.cursor.position
  let dims := g.dimensions
  if mode = 0 then
    g.clearCellList ((List.range' pos.col (dims.cols - pos.col)).map (fun c => (pos.row, c)))
  else if mode = 1 then
    g.clearCellList ((List.range (pos.col + 1)).map (fun c => (pos.row, c)))
  else if mode = 2 then
    g.clearCellList ((List.range dims.cols).map (fun c => (pos.row, c)))
  else g

/-- CSI dispatch (`Perform::csi_dispatch`): cursor movement, cursor
position, erase, SGR, save and restore; unknown finals are ignored. -/
def Grid.csiDispatch (g : Grid) (params : List (List Nat)) (c : Char) : Grid :=
  if c = 'A' then g.cursorUp (paramFirst params 1)
  else if c = 'B' then g.cursorDown (paramFirst params 1)
  else if c = 'C' then g.cursorForward (paramFirst params 1)
  else if c = 'D' then g.cursorBackward (paramFirst params 1)
  else if c = 'H' then
    let row := (match params.head? with | some p => groupVal p | none => 1) - 1
    let col := (match params.get? 1 with | some p => groupVal p | none => 1) - 1
    { g with cursor := { g.cursor with position :=
        ⟨min row (g.dimensions.rows - 1), min col (g.dimensions.cols - 1)⟩ } }
  else if c = 'J' then g.eraseInDisplay (paramFirst params 0)
  else if c = 'K' then g.eraseInLine (paramFirst params 0)
  else if c = 'm' then
    let st := processSgr (g.currentAttrs, g.currentFg, g.currentBg) params
    { g with currentAttrs := st.1, currentFg := st.2.1, currentBg := st.2.2 }
  else if c = 's' then g.saveCursor
  else if c = 'u' then g.restoreCursor
  else g

/-- One grid or parser operation, as listed in the spec's grid-integrity
invariant. -/
inductive Op where
  | print (c : Char)
  | execute (b : Nat)
  | csi (params : List (List Nat)) (final : Char)
  | clear
  | clearRegion (b : Bounds)
  | resize (d : Dimensions)
  | saveCursor
  | restoreCursor
deriving DecidableEq, Repr

/-- Apply one operation to the grid. -/
def Grid.applyOp (g : Grid) : Op → Grid
  | .print c => g.printChar c
  | .execute b => g.executeCtrl b
  | .csi params final => g.csiDispatch params final
  | .clear => g.clearAll
  | .clearRegion b => g.clearRegion b
  | .resize d => g.resize d
  | .saveCursor => g.saveCursor
  | .restoreCursor => g.restoreCursor

/-- Apply a sequence of operations. -/
def Grid.applyOps (g : Grid) (ops : List Op) : Grid :=
  ops.foldl Grid.applyOp g

end TerminalMcp

namespace TerminalMcp

/-! ## Grid invariants -/

/-- Storage invariant: the cell buffer length equals `rows * cols`. -/
def Grid.lenInv (g : Grid) : Prop :=
  g.cells.length = g.dimensions.rows * g.dimensions.cols

/-- Positive dimensions. -/
def Grid.posDims (g : Grid) : Prop :=
  0 < g.dimensions.rows ∧ 0 < g.dimensions.cols

/-- Cursor-in-bounds invariant. -/
def Grid.cursorOK (g : Grid) : Prop :=
  g.cursor.position.row < g.dimensions.rows ∧ g.cursor.position.col < g.dimensions.cols

/-- Saved-cursor-in-bounds invariant. -/
def Grid.savedOK (g : Grid) : Prop :=
  ∀ cur, g.savedCursor = some cur →
    cur.position.row < g.dimensions.rows ∧ cur.position.col < g.dimensions.cols

theorem Grid.setCell_cells_length (g : Grid) (r c : Nat) (cell : Cell) :
    (g.setCell r c cell).cells.length = g.cells.length := by
  unfold Grid.setCell; split <;> simp

theorem Grid.setCell_dimensions (g : Grid) (r c : Nat) (cell : Cell) :
    (g.setCell r c cell).dimensions = g.dimensions := by
  unfold Grid.setCell; split <;> rfl

theorem Grid.setCell_cursor (g : Grid) (r c : Nat) (cell : Cell) :
    (g.setCell r c cell).cursor = g.cursor := by
  unfold Grid.setCell; split <;> rfl

theorem Grid.setCell_savedCursor (g : Grid) (r c : Nat) (cell : Cell) :
    (g.setCell r c cell).savedCursor = g.savedCursor := by
  unfold Grid.setCell; split <;> rfl

theorem Grid.clearCellList_cells_length (g : Grid) (ps : List (Nat × Nat)) :
    (g.clearCellList ps).cells.length = g.cells.length := by
  induction ps generalizing g with
  | nil => rfl
  | cons hd tl ih =>
    show ((g.setCell hd.1 hd.2 Cell.default).clearCellList tl).cells.length = _
    rw [ih, Grid.setCell_cells_length]

theorem Grid.clearCellList_dimensions (g : Grid) (ps : List (Nat × Nat)) :
    (g.clearCellList ps).dimensions = g.dimensions := by
  induction ps generalizing g with
  | nil => rfl
  | cons hd tl ih =>
    show ((g.setCell hd.1 hd.2 Cell.default).clearCellList tl).dimensions = _
    rw [ih, Grid.setCell_dimensions]

theorem Grid.clearCellList_cursor (g : Grid) (ps : List (Nat × Nat)) :
    (g.clearCellList ps).cursor = g.cursor := by
  induction ps generalizing g with
  | nil => rfl
  | cons hd tl ih =>
    show ((g.setCell hd.1 hd.2 Cell.default).clearCellList tl).cursor = _
    rw [ih, Grid.setCell_cursor]

theorem Grid.clearCellList_savedCursor (g : Grid) (ps : List (Nat × Nat)) :
    (g.clearCellList ps).savedCursor = g.savedCursor := by
  induction ps generalizing g with
  | nil => rfl
  | cons hd tl ih =>
    show ((g.setCell hd.1 hd.2 Cell.default).clearCellList tl).savedCursor = _
    rw [ih, Grid.setCell_savedCursor]

theorem Grid.resize_cells_length (g : Grid) (nd : Dimensions) :
    (g.resize nd).cells.length = nd.rows * nd.cols := by
  simp [Grid.resize]

theorem Grid.printChar_cells_length (g : Grid) (c : Char) :
    (g.printChar c).cells.length = g.cells.length := by
  unfold Grid.printChar
  dsimp only
  split <;> dsimp only <;> rw [Grid.setCell_cells_length]

theorem Grid.printChar_dimensions (g : Grid) (c : Char) :
    (g.printChar c).dimensions = g.dimensions := by
  unfold Grid.printChar
  dsimp only
  split <;> dsimp only <;> rw [Grid.setCell_dimensions]

theorem Grid.printChar_savedCursor (g : Grid) (c : Char) :
    (g.printChar c).savedCursor = g.savedCursor := by
  unfold Grid.printChar
  dsimp only
  split <;> dsimp only <;> rw [Grid.setCell_savedCursor]

theorem Grid.executeCtrl_cells (g : Grid) (b : Nat) :
    (g.executeCtrl b).cells = g.cells := by
  unfold Grid.executeCtrl Grid.cursorBackward Grid.cursorDown
  split <;> try rfl
  split <;> try rfl
  split <;> try rfl
  split <;> rfl

theorem Grid.executeCtrl_dimensions (g : Grid) (b : Nat) :
    (g.executeCtrl b).dimensions = g.dimensions := by
  unfold Grid.executeCtrl Grid.cursorBackward Grid.cursorDown
  split <;> try rfl
  split <;> try rfl
  split <;> try rfl
  split <;> rfl

theorem Grid.executeCtrl_savedCursor (g : Grid) (b : Nat) :
    (g.executeCtrl b).savedCursor = g.savedCursor := by
  unfold Grid.executeCtrl Grid.cursorBackward Grid.cursorDown
  split <;> try rfl
  split <;> try rfl
  split <;> try rfl
  split <;> rfl

theorem Grid.eraseInDisplay_cells_length (g : Grid) (m : Nat) :
    (g.eraseInDisplay m).cells.length = g.cells.length := by
  unfold Grid.eraseInDisplay Grid.clearAll
  dsimp only
  split
  · rw [Grid.clearCellList_cells_length]
  split
  · rw [Grid.clearCellList_cells_length]
  split
  · simp
  · rfl

theorem Grid.eraseInDisplay_dimensions (g : Grid) (m : Nat) :
    (g.eraseInDisplay m).dimensions = g.dimensions := by
  unfold Grid.eraseInDisplay Grid.clearAll
  dsimp only
  split
  · rw [Grid.clearCellList_dimensions]
  split
  · rw [Grid.clearCellList_dimensions]
  split
  · rfl
  · rfl

theorem Grid.eraseInDisplay_cursor (g : Grid) (m : Nat) :
    (g.eraseInDisplay m).cursor = g.cursor := by
  unfold Grid.eraseInDisplay Grid.clearAll
  dsimp only
  split
  · rw [Grid.clearCellList_cursor]
  split
  · rw [Grid.clearCellList_cursor]
  split
  · rfl
  · rfl

theorem Grid.eraseInDisplay_savedCursor (g : Grid) (m : Nat) :
    (g.eraseInDisplay m).savedCursor = g.savedCursor := by
  unfold Grid.eraseInDisplay Grid.clearAll
  dsimp only
  split
  · rw [Grid.clearCellList_savedCursor]
  split
  · rw [Grid.clearCellList_savedCursor]
  split
  · rfl
  · rfl

theorem Grid.eraseInLine_cells_length (g : Grid) (m : Nat) :
    (g.eraseInLine m).cells.length = g.cells.length := by
  unfold Grid.eraseInLine
  dsimp only
  split
  · rw [Grid.clearCellList_cells_length]
  split
  · rw [Grid.clearCellList_cells_length]
  split
  · rw [Grid.clearCellList_cells_length]
  · rfl

theorem Grid.eraseInLine_dimensions (g : Grid) (m : Nat) :
    (g.eraseInLine m).dimensions = g.dimensions := by
  unfold Grid.eraseInLine
  dsimp only
  split
  · rw [Grid.clearCellList_dimensions]
  split
  · rw [Grid.clearCellList_dimensions]
  split
  · rw [Grid.clearCellList_dimensions]
  · rfl

theorem Grid.eraseInLine_cursor (g : Grid) (m : Nat) :
    (g.eraseInLine m).cursor = g.cursor := by
  unfold Grid.eraseInLine
  dsimp only
  split
  · rw [Grid.clearCellList_cursor]
  split
  · rw [Grid.clearCellList_cursor]
  split
  · rw [Grid.clearCellList_cursor]
  · rfl

theorem Grid.eraseInLine_savedCursor (g : Grid) (m : Nat) :
    (g.eraseInLine m).savedCursor = g.savedCursor := by
  unfold Grid.eraseInLine
  dsimp only
  split
  · rw [Grid.clearCellList_savedCursor]
  split
  · rw [Grid.clearCellList_savedCursor]
  split
  · rw [Grid.clearCellList_savedCursor]
  · rfl

/-- Whether an operation restores the cursor (directly or via `CSI u`). -/
def Op.isRestore : Op → Bool
  | .restoreCursor => true
  | .csi _ c => c = 'u'
  | _ => false

/-- Whether an operation is a resize. -/
def Op.isResize : Op → Bool
  | .resize _ => true
  | _ => false

/-- Whether a resize operation carries positive dimensions (vacuously true
for the other operations). -/
def Op.resizeOK : Op → Bool
  | .resize d => decide (0 < d.rows) && decide (0 < d.cols)
  | _ => true

theorem Grid.csiDispatch_cells_length (g : Grid) (params : List (List Nat)) (c : Char) :
    (g.csiDispatch params c).cells.length = g.cells.length := by
  unfold Grid.csiDispatch Grid.cursorUp Grid.cursorDown Grid.cursorForward
    Grid.cursorBackward Grid.saveCursor Grid.restoreCursor
  dsimp only
  split
  · rfl
  split
  · rfl
  split
  · rfl
  split
  · rfl
  split
  · rfl
  split
  · rw [Grid.eraseInDisplay_cells_length]
  split
  · rw [Grid.eraseInLine_cells_length]
  split
  · rfl
  split
  · rfl
  split
  · split <;> rfl
  · rfl

theorem Grid.csiDispatch_dimensions (g : Grid) (params : List (List Nat)) (c : Char) :
    (g.csiDispatch params c).dimensions = g.dimensions := by
  unfold Grid.csiDispatch Grid.cursorUp Grid.cursorDown Grid.cursorForward
    Grid.cursorBackward Grid.saveCursor Grid.restoreCursor
  dsimp only
  split
  · rfl
  split
  · rfl
  split
  · rfl
  split
  · rfl
  split
  · rfl
  split
  · rw [Grid.eraseInDisplay_dimensions]
  split
  · rw [Grid.eraseInLine_dimensions]
  split
  · rfl
  split
  · rfl
  split
  · split <;> rfl
  · rfl

theorem Grid.applyOp_lenInv (g : Grid) (op : Op) (h : g.lenInv) : (g.applyOp op).lenInv := by
  unfold Grid.lenInv at *
  cases op with
  | print c =>
    simp only [Grid.applyOp]
    rw [Grid.printChar_cells_length, Grid.printChar_dimensions]; exact h
  | execute b =>
    simp only [Grid.applyOp]
    rw [Grid.executeCtrl_cells, Grid.executeCtrl_dimensions]; exact h
  | csi params final =>
    simp only [Grid.applyOp]
    rw [Grid.csiDispatch_cells_length, Grid.csiDispatch_dimensions]; exact h
  | clear =>
    simp only [Grid.applyOp]
    unfold Grid.clearAll; simpa using h
  | clearRegion b =>
    simp only [Grid.applyOp]
    unfold Grid.clearRegion
    rw [Grid.clearCellList_cells_length, Grid.clearCellList_dimensions]; exact h
  | resize d =>
    simp only [Grid.applyOp]
    rw [Grid.resize_cells_length]; rfl
  | saveCursor => exact h
  | restoreCursor =>
    simp only [Grid.applyOp]
    unfold Grid.restoreCursor
    split <;> exact h

theorem Grid.applyOp_dimensions_of_not_resize (g : Grid) (op : Op)
    (hop : op.isResize = false) : (g.applyOp op).dimensions = g.dimensions := by
  cases op with
  | print c => exact Grid.printChar_dimensions g c
  | execute b => exact Grid.executeCtrl_dimensions g b
  | csi params final => exact Grid.csiDispatch_dimensions g params final
  | clear => rfl
  | clearRegion b =>
    simp only [Grid.applyOp]
    unfold Grid.clearRegion
    rw [Grid.clearCellList_dimensions]
  | resize d => simp [Op.isResize] at hop
  | saveCursor => rfl
  | restoreCursor =>
    simp only [Grid.applyOp]
    unfold Grid.restoreCursor
    split <;> rfl

theorem Grid.applyOp_posDims (g : Grid) (op : Op) (h : g.posDims)
    (hres : op.resizeOK = true) : (g.applyOp op).posDims := by
  cases hop : op.isResize with
  | false =>
    unfold Grid.posDims at *
    rw [Grid.applyOp_dimensions_of_not_resize g op hop]
    exact h
  | true =>
    cases op with
    | resize d =>
      simp only [Op.resizeOK, Bool.and_eq_true, decide_eq_true_eq] at hres
      simp only [Grid.applyOp]
      unfold Grid.posDims Grid.resize
      dsimp only
      exact hres
    | print c => simp [Op.isResize] at hop
    | execute b => simp [Op.isResize] at hop
    | csi p f => simp [Op.isResize] at hop
    | clear => simp [Op.isResize] at hop
    | clearRegion b => simp [Op.isResize] at hop
    | saveCursor => simp [Op.isResize] at hop
    | restoreCursor => simp [Op.isResize] at hop

theorem Grid.cursorUp_cursorOK (g : Grid) (n : Nat) (h : g.cursorOK) :
    (g.cursorUp n).cursorOK := by
  unfold Grid.cursorOK Grid.cursorUp at *
  dsimp only
  omega

theorem Grid.cursorDown_cursorOK (g : Grid) (n : Nat) (hr : 0 < g.dimensions.rows)
    (h : g.cursorOK) : (g.cursorDown n).cursorOK := by
  unfold Grid.cursorOK Grid.cursorDown at *
  dsimp only
  omega

theorem Grid.cursorForward_cursorOK (g : Grid) (n : Nat) (hc : 0 < g.dimensions.cols)
    (h : g.cursorOK) : (g.cursorForward n).cursorOK := by
  unfold Grid.cursorOK Grid.cursorForward at *
  dsimp only
  omega

theorem Grid.cursorBackward_cursorOK (g : Grid) (n : Nat) (h : g.cursorOK) :
    (g.cursorBackward n).cursorOK := by
  unfold Grid.cursorOK Grid.cursorBackward at *
  dsimp only
  omega

theorem Grid.printChar_cursorOK (g : Grid) (c : Char) (hp : g.posDims)
    (h : g.cursorOK) : (g.printChar c).cursorOK := by
  obtain ⟨hr, hc⟩ := hp
  obtain ⟨h1, h2⟩ := h
  unfold Grid.cursorOK Grid.printChar
  dsimp only
  split <;> dsimp only <;> rw [Grid.setCell_dimensions] <;> constructor <;> omega

theorem Grid.executeCtrl_cursorOK (g : Grid) (b : Nat) (hp : g.posDims)
    (h : g.cursorOK) : (g.executeCtrl b).cursorOK := by
  obtain ⟨hr, hc⟩ := hp
  unfold Grid.executeCtrl
  split
  · exact g.cursorBackward_cursorOK 1 h
  split
  · unfold Grid.cursorOK at *
    dsimp only
    omega
  split
  · exact g.cursorDown_cursorOK 1 hr h
  split
  · unfold Grid.cursorOK at *
    dsimp only
    omega
  · exact h

theorem Grid.csiDispatch_cursorOK_of_ne_u (g : Grid) (params : List (List Nat)) (c : Char)
    (hp : g.posDims) (h : g.cursorOK) (hu : c ≠ 'u') :
    (g.csiDispatch params c).cursorOK := by
  obtain ⟨hr, hc⟩ := hp
  unfold Grid.csiDispatch
  split
  · exact g.cursorUp_cursorOK _ h
  split
  · exact g.cursorDown_cursorOK _ hr h
  split
  · exact g.cursorForward_cursorOK _ hc h
  split
  · exact g.cursorBackward_cursorOK _ h
  split
  · unfold Grid.cursorOK at *
    dsimp only
    omega
  split
  · unfold Grid.cursorOK at *
    rw [Grid.eraseInDisplay_cursor, Grid.eraseInDisplay_dimensions]
    exact h
  split
  · unfold Grid.cursorOK at *
    rw [Grid.eraseInLine_cursor, Grid.eraseInLine_dimensions]
    exact h
  split
  · unfold Grid.cursorOK at *
    dsimp only
    exact h
  split
  · unfold Grid.cursorOK Grid.saveCursor at *
    dsimp only
    exact h
  exact h

theorem Grid.restoreCursor_cursorOK (g : Grid) (h : g.cursorOK) (hs : g.savedOK) :
    g.restoreCursor.cursorOK := by
  unfold Grid.restoreCursor
  split
  · rename_i saved hsaved
    unfold Grid.cursorOK
    dsimp only
    exact hs saved hsaved
  · exact h

theorem Grid.csiDispatch_cursorOK (g : Grid) (params : List (List Nat)) (c : Char)
    (hp : g.posDims) (h : g.cursorOK) (hs : g.savedOK) :
    (g.csiDispatch params c).cursorOK := by
  by_cases hcu : c = 'u'
  · subst hcu
    unfold Grid.csiDispatch
    norm_num
    exact g.restoreCursor_cursorOK h hs
  · exact g.csiDispatch_cursorOK_of_ne_u params c hp h hcu

theorem Grid.applyOp_cursorOK_of_not_restore (g : Grid) (op : Op) (hp : g.posDims)
    (h : g.cursorOK) (hres : op.resizeOK = true) (hno : op.isRestore = false) :
    (g.applyOp op).cursorOK := by
  cases op with
  | print c => exact g.printChar_cursorOK c hp h
  | execute b => exact g.executeCtrl_cursorOK b hp h
  | csi params final =>
    simp only [Op.isRestore, decide_eq_false_iff_not] at hno
    exact g.csiDispatch_cursorOK_of_ne_u params final hp h hno
  | clear =>
    unfold Grid.cursorOK Grid.applyOp Grid.clearAll at *
    dsimp only
    exact h
  | clearRegion b =>
    unfold Grid.cursorOK Grid.applyOp Grid.clearRegion at *
    rw [Grid.clearCellList_cursor, Grid.clearCellList_dimensions]
    exact h
  | resize d =>
    simp only [Op.resizeOK, Bool.and_eq_true, decide_eq_true_eq] at hres
    unfold Grid.cursorOK Grid.applyOp Grid.resize
    dsimp only
    rw [if_pos hres.1, if_pos hres.2]
    omega
  | saveCursor =>
    unfold Grid.cursorOK Grid.applyOp Grid.saveCursor at *
    dsimp only
    exact h
  | restoreCursor => simp [Op.isRestore] at hno

theorem Grid.applyOp_savedOK_of_not_resize (g : Grid) (op : Op) (h : g.savedOK)
    (hcur : g.cursorOK) (hop : op.isResize = false) : (g.applyOp op).savedOK := by
  have hdim := Grid.applyOp_dimensions_of_not_resize g op hop
  cases op with
  | print c =>
    intro cur hc
    rw [show (g.applyOp (Op.print c)).savedCursor = g.savedCursor from
      Grid.printChar_savedCursor g c] at hc
    rw [hdim]
    exact h cur hc
  | execute b =>
    intro cur hc
    rw [show (g.applyOp (Op.execute b)).savedCursor = g.savedCursor from
      Grid.executeCtrl_savedCursor g b] at hc
    rw [hdim]
    exact h cur hc
  | csi params final =>
    intro cur hc
    rw [hdim]
    simp only [Grid.applyOp] at hc
    unfold Grid.csiDispatch at hc
    revert hc
    split
    · exact fun hc => h cur hc
    split
    · exact fun hc => h cur hc
    split
    · exact fun hc => h cur hc
    split
    · exact fun hc => h cur hc
    split
    · exact fun hc => h cur hc
    split
    · rw [Grid.eraseInDisplay_savedCursor]
      exact fun hc => h cur hc
    split
    · rw [Grid.eraseInLine_savedCursor]
      exact fun hc => h cur hc
    split
    · exact fun hc => h cur hc
    split
    · unfold Grid.saveCursor
      dsimp only
      intro hc
      cases hc
      exact hcur
    split
    · unfold Grid.restoreCursor
      split
      · intro hc
        cases hc
      · exact fun hc => h cur hc
    · exact fun hc => h cur hc
  | clear =>
    intro cur hc
    rw [hdim]
    exact h cur hc
  | clearRegion b =>
    intro cur hc
    simp only [Grid.applyOp] at hc
    unfold Grid.clearRegion at hc
    rw [Grid.clearCellList_savedCursor] at hc
    rw [hdim]
    exact h cur hc
  | resize d => simp [Op.isResize] at hop
  | saveCursor =>
    intro cur hc
    simp only [Grid.applyOp] at hc
    unfold Grid.saveCursor at hc
    dsimp only at hc
    cases hc
    rw [hdim]
    exact hcur
  | restoreCursor =>
    intro cur hc
    simp only [Grid.applyOp] at hc
    unfold Grid.restoreCursor at hc
    revert hc
    split
    · intro hc
      cases hc
    · intro hc
      rw [hdim]
      exact h cur hc

theorem Grid.applyOp_cursorOK_of_not_resize (g : Grid) (op : Op) (hp : g.posDims)
    (h : g.cursorOK) (hs : g.savedOK) (hop : op.isResize = false) :
    (g.applyOp op).cursorOK := by
  cases op with
  | print c => exact g.printChar_cursorOK c hp h
  | execute b => exact g.executeCtrl_cursorOK b hp h
  | csi params final => exact g.csiDispatch_cursorOK params final hp h hs
  | clear =>
    unfold Grid.cursorOK Grid.applyOp Grid.clearAll at *
    dsimp only
    exact h
  | clearRegion b =>
    unfold Grid.cursorOK Grid.applyOp Grid.clearRegion at *
    rw [Grid.clearCellList_cursor, Grid.clearCellList_dimensions]
    exact h
  | resize d => simp [Op.isResize] at hop
  | saveCursor =>
    unfold Grid.cursorOK Grid.applyOp Grid.saveCursor at *
    dsimp only
    exact h
  | restoreCursor => exact g.restoreCursor_cursorOK h hs

theorem Grid.applyOps_lenInv (g : Grid) (ops : List Op) (h : g.lenInv) :
    (g.applyOps ops).lenInv := by
  induction ops generalizing g with
  | nil => exact h
  | cons op tl ih => exact ih _ (g.applyOp_lenInv op h)

theorem Grid.applyOps_posDims (g : Grid) (ops : List Op) (h : g.posDims)
    (hres : ∀ op ∈ ops, op.resizeOK = true) : (g.applyOps ops).posDims := by
  induction ops generalizing g with
  | nil => exact h
  | cons op tl ih =>
    exact ih _ (g.applyOp_posDims op h (hres op (by simp)))
      (fun o ho => hres o (by simp [ho]))

theorem Grid.applyOps_cursorOK_of_no_restore (g : Grid) (ops : List Op)
    (hp : g.posDims) (h : g.cursorOK)
    (hres : ∀ op ∈ ops, op.resizeOK = true)
    (hno : ∀ op ∈ ops, op.isRestore = false) : (g.applyOps ops).cursorOK := by
  induction ops generalizing g with
  | nil => exact h
  | cons op tl ih =>
    exact ih _ (g.applyOp_posDims op hp (hres op (by simp)))
      (g.applyOp_cursorOK_of_not_restore op hp h (hres op (by simp)) (hno op (by simp)))
      (fun o ho => hres o (by simp [ho])) (fun o ho => hno o (by simp [ho]))

theorem Grid.applyOps_cursorOK_of_no_resize (g : Grid) (ops : List Op)
    (hp : g.posDims) (h : g.cursorOK) (hs : g.savedOK)
    (hno : ∀ op ∈ ops, op.isResize = false) : (g.applyOps ops).cursorOK := by
  induction ops generalizing g with
  | nil => exact h
  | cons op tl ih =>
    have hop := hno op (by simp)
    have hp' : (g.applyOp op).posDims := by
      unfold Grid.posDims at *
      rw [Grid.applyOp_dimensions_of_not_resize g op hop]
      exact hp
    exact ih _ hp'
      (g.applyOp_cursorOK_of_not_resize op hp h hs hop)
      (g.applyOp_savedOK_of_not_resize op hs h hop)
      (fun o ho => hno o (by simp [ho]))

theorem Grid.new_lenInv (d : Dimensions) : (Grid.new d).lenInv := by
  unfold Grid.lenInv Grid.new Dimensions.cellCount
  simp

theorem Grid.new_savedOK (d : Dimensions) : (Grid.new d).savedOK := by
  intro cur hc
  cases hc

theorem rowMajorIdx_lt {r c R C : Nat} (hr : r < R) (hc : c < C) :
    r * C + c < R * C := by
  calc r * C + c < r * C + C := by omega
    _ = (r + 1) * C := by ring
    _ ≤ R * C := Nat.mul_le_mul_right C (by omega)

theorem Grid.resize_cellAt_eval (g : Grid) (nd : Dimensions) (r c : Nat)
    (hr : r < nd.rows) (hc : c < nd.cols) :
    (g.resize nd).cellAt r c =
      some (if r < min g.dimensions.rows nd.rows ∧ c < min g.dimensions.cols nd.cols
            then (g.cells.get? (r * g.dimensions.cols + c)).getD Cell.default
            else Cell.default) := by
  unfold Grid.cellAt Grid.resize
  dsimp only
  rw [if_pos ⟨hr, hc⟩]
  rw [List.get?_eq_getElem?, List.getElem?_map, List.getElem?_range (rowMajorIdx_lt hr hc)]
  dsimp only [Option.map]
  have hdiv : (r * nd.cols + c) / nd.cols = r := by
    rw [Nat.mul_comm, Nat.mul_add_div (by omega)]
    rw [Nat.div_eq_of_lt hc]
    omega
  have hmod : (r * nd.cols + c) % nd.cols = c := by
    rw [Nat.mul_comm, Nat.mul_add_mod]
    exact Nat.mod_eq_of_lt hc
  rw [hdiv, hmod]

/-- C6: for every well-formed grid and positive new dimensions, `Grid::resize`
preserves the top-left `min(old,new)` rectangle byte-identically, defaults
every other cell of the new grid, clamps the cursor into the new bounds, and
leaves the current SGR state (attributes and both colors) unchanged.  The
positivity hypotheses are needed: resizing to zero rows or columns skips the
cursor clamp (see the counterexample). -/
theorem c6_resize_preservation (g : Grid) (nd : Dimensions)
    (hwf : g.lenInv) (hr : 0 < nd.rows) (hc : 0 < nd.cols) :
    (∀ r c, r < min g.dimensions.rows nd.rows → c < min g.dimensions.cols nd.cols →
        (g.resize nd).cellAt r c = g.cellAt r c) ∧
    (∀ r c, r < nd.rows → c < nd.cols →
        ¬(r < min g.dimensions.rows nd.rows ∧ c < min g.dimensions.cols nd.cols) →
        (g.resize nd).cellAt r c = some Cell.default) ∧
    (g.resize nd).cursor.position.row = min g.cursor.position.row (nd.rows - 1) ∧
    (g.resize nd).cursor.position.col = min g.cursor.position.col (nd.cols - 1) ∧
    (g.resize nd).currentAttrs = g.currentAttrs ∧
    (g.resize nd).currentFg = g.currentFg ∧
    (g.resize nd).currentBg = g.currentBg := by
  refine ⟨?_, ?_, ?_, ?_, rfl, rfl, rfl⟩
  · intro r c h1 h2
    have hrn : r < nd.rows := lt_of_lt_of_le h1 (min_le_right _ _)
    have hcn : c < nd.cols := lt_of_lt_of_le h2 (min_le_right _ _)
    have hro : r < g.dimensions.rows := lt_of_lt_of_le h1 (min_le_left _ _)
    have hco : c < g.dimensions.cols := lt_of_lt_of_le h2 (min_le_left _ _)
    rw [Grid.resize_cellAt_eval g nd r c hrn hcn, if_pos ⟨h1, h2⟩]
    unfold Grid.cellAt
    rw [if_pos ⟨hro, hco⟩]
    have hidx : r * g.dimensions.cols + c < g.cells.length := by
      rw [hwf]; exact rowMajorIdx_lt hro hco
    rw [List.get?_eq_get hidx]
    rfl
  · intro r c h1 h2 hout
    rw [Grid.resize_cellAt_eval g nd r c h1 h2, if_neg hout]
  · unfold Grid.resize
    dsimp only
    rw [if_pos hr]
  · unfold Grid.resize
    dsimp only
    rw [if_pos hc]

theorem c6_resize_witness :
    (Grid.new ⟨2, 3⟩).lenInv ∧ 0 < (1 : Nat) ∧ 0 < (2 : Nat) ∧
    ((Grid.new ⟨2, 3⟩).resize ⟨1, 2⟩).cellAt 0 1 = (Grid.new ⟨2, 3⟩).cellAt 0 1 ∧
    ((Grid.new ⟨2, 3⟩).resize ⟨1, 2⟩).cursor.position.row =
      min (Grid.new ⟨2, 3⟩).cursor.position.row (1 - 1) :=
  ⟨Grid.new_lenInv ⟨2, 3⟩, by decide, by decide,
    (c6_resize_preservation (Grid.new ⟨2, 3⟩) ⟨1, 2⟩ (Grid.new_lenInv _) (by decide)
        (by decide)).1 0 1 (by decide) (by decide),
    (c6_resize_preservation (Grid.new ⟨2, 3⟩) ⟨1, 2⟩ (Grid.new_lenInv _) (by decide)
        (by decide)).2.2.1⟩

/-- C6 counterexample: on a 2×2 grid with the cursor at (1,1), resizing to
0×0 dimensions leaves the cursor coordinate unclamped and outside the new
bounds, so the claim's unconditional "cursor is clamped into the new
bounds" fails for zero target dimensions. -/
theorem c6_resize_counterexample :
    ¬ ((({ Grid.new ⟨2, 2⟩ with
            cursor := { Cursor.init with position := ⟨1, 1⟩ } }).resize ⟨0, 0⟩).cursor.position.row
        < (({ Grid.new ⟨2, 2⟩ with
            cursor := { Cursor.init with position := ⟨1, 1⟩ } }).resize ⟨0, 0⟩).dimensions.rows) := by
  decide

/-- C7: starting from a grid with positive dimensions, after any sequence of
grid and parser operations whose resizes have positive dimensions, the cell
storage length equals `rows * cols`; and the cursor stays within bounds
provided the sequence contains no cursor-restore operation or no resize
operation.  The proviso is needed: restoring a cursor saved before a
shrinking resize moves the cursor out of bounds (see the counterexample). -/
theorem c7_grid_integrity (d : Dimensions) (ops : List Op)
    (hr : 0 < d.rows) (hc : 0 < d.cols)
    (hres : ∀ op ∈ ops, op.resizeOK = true) :
    ((Grid.new d).applyOps ops).lenInv ∧
    (((∀ op ∈ ops, op.isRestore = false) ∨ (∀ op ∈ ops, op.isResize = false)) →
      ((Grid.new d).applyOps ops).cursorOK) := by
  constructor
  · exact Grid.applyOps_lenInv _ _ (Grid.new_lenInv d)
  · intro hcase
    have hp : (Grid.new d).posDims := ⟨hr, hc⟩
    have hcur : (Grid.new d).cursorOK := ⟨hr, hc⟩
    cases hcase with
    | inl hno => exact Grid.applyOps_cursorOK_of_no_restore _ _ hp hcur hres hno
    | inr hno => exact Grid.applyOps_cursorOK_of_no_resize _ _ hp hcur (Grid.new_savedOK d) hno

theorem c7_grid_integrity_witness :
    (∀ op ∈ ([.print 'x', .csi [[3]] 'A', .resize ⟨1, 1⟩] : List Op), op.resizeOK = true) ∧
    ((Grid.new ⟨2, 2⟩).applyOps [.print 'x', .csi [[3]] 'A', .resize ⟨1, 1⟩]).lenInv ∧
    ((Grid.new ⟨2, 2⟩).applyOps [.print 'x', .csi [[3]] 'A', .resize ⟨1, 1⟩]).cursorOK :=
  ⟨by decide,
    (c7_grid_integrity ⟨2, 2⟩ [.print 'x', .csi [[3]] 'A', .resize ⟨1, 1⟩]
      (by decide) (by decide) (by decide)).1,
    (c7_grid_integrity ⟨2, 2⟩ [.print 'x', .csi [[3]] 'A', .resize ⟨1, 1⟩]
      (by decide) (by decide) (by decide)).2 (Or.inl (by decide))⟩

/-- C7 counterexample: on a 24×80 grid, moving the cursor to (10,10),
saving it, resizing to 1×1 (positive dimensions) and then restoring leaves
the cursor at row 10 in a 1-row grid, violating the claimed cursor-bounds
invariant even though every listed operation was used as permitted. -/
theorem c7_grid_integrity_counterexample :
    ¬ (((Grid.new ⟨24, 80⟩).applyOps
          [.csi [[11], [11]] 'H', .saveCursor, .resize ⟨1, 1⟩, .restoreCursor]).cursor.position.row
        < ((Grid.new ⟨24, 80⟩).applyOps
          [.csi [[11], [11]] 'H', .saveCursor, .resize ⟨1, 1⟩, .restoreCursor]).dimensions.rows) := by
  decide

/-! ## Detection core (`terminal-mcp-detector/src/detection.rs`) -/

/-- Detection confidence level. -/
inductive Confidence where
  | low
  | medium
  | high
deriving DecidableEq, Repr

/-- Raw detection result before assembly. -/
structure DetectedElement where
  element : Element
  bounds : Bounds
  confidence : Confidence
deriving DecidableEq, Repr

/-- The grid interface the detectors consult: dimensions plus cell lookup
(`Grid::dimensions` and `Grid::cell`, the only grid operations the
detectors call).  `cell` returns `none` exactly when the position is out
of bounds. -/
structure DetGrid where
  rows : Nat
  cols : Nat
  cell : Nat → Nat → Option Cell

/-- Context passed to each detector: the regions already claimed by
higher-priority detectors and the cursor position.  The source's
`previous_elements` (always `None` in the pipeline) and `ref_counter`
(not consulted by the embedded detectors; modelled standalone as
`RefIdGenerator`) are omitted. -/
structure DetectionContext where
  claimedRegions : List Bounds
  cursor : Position

/-- Whether a region overlaps any claimed region
(`DetectionContext::is_region_claimed`). -/
def DetectionContext.isRegionClaimed (ctx : DetectionContext) (b : Bounds) : Bool :=
  ctx.claimedRegions.any (fun claimed => b.intersects claimed)

/-- Reference-id generator (`RefIdGenerator`): a per-type counter map,
empty entries reading as zero. -/
structure RefIdGenerator where
  counters : String → Nat

/-- Fresh generator with all counters unset (`RefIdGenerator::new`). -/
def RefIdGenerator.new : RefIdGenerator :=
  ⟨fun _ => 0⟩

/-- Generate the next id for an element type (`RefIdGenerator::next`):
increment the type's counter and render `<type>_<counter>`. -/
def RefIdGenerator.next (gen : RefIdGenerator) (elementType : String) : String × RefIdGenerator :=
  let n := gen.counters elementType + 1
  (elementType ++ "_" ++ toString n,
    ⟨fun s => if s = elementType then n else gen.counters s⟩)

/-- Reset all counters (`RefIdGenerator::reset`). -/
def RefIdGenerator.reset (_ : RefIdGenerator) : RefIdGenerator :=
  ⟨fun _ => 0⟩

/-- A detector as the pipeline sees it: the `enabled` flag and the
`detect` function of the `ElementDetector` contract.  (The pipeline sorts
by `priority` when detectors are added; here the list is taken already in
running order.) -/
structure AbsDetector where
  enabled : Bool := true
  detect : DetGrid → DetectionContext → List DetectedElement

/-- The pipeline loop (`DetectionPipeline::detect`): run each enabled
detector, claim the bounds of everything it returned, and concatenate the
outputs. -/
def pipelineGo (g : DetGrid) :
    List AbsDetector → DetectionContext → List DetectedElement → List DetectedElement
  | [], _, acc => acc
  | d :: rest, ctx, acc =>
    if d.enabled then
      let es := d.detect g ctx
      pipelineGo g rest
        { ctx with claimedRegions := ctx.claimedRegions ++ es.map (·.bounds) } (acc ++ es)
    else
      pipelineGo g rest ctx acc

/-- Run all detectors on the grid (`DetectionPipeline::detect`). -/
def pipelineDetect (ds : List AbsDetector) (g : DetGrid) (cursor : Position) :
    List DetectedElement :=
  pipelineGo g ds { claimedRegions := [], cursor := cursor } []

/-! ## Border detector (`terminal-mcp-detector/src/detectors/border.rs`) -/

/-- Box-drawing character set. -/
structure BoxCharSet where
  topLeft : Char
  topRight : Char
  bottomLeft : Char
  bottomRight : Char
  horizontal : Char
  vertical : Char

/-- The five recognized box character sets (`BorderDetector::new`). -/
def boxSets : List BoxCharSet :=
  [⟨'┌', '┐', '└', '┘', '─', '│'⟩,
   ⟨'┏', '┓', '┗', '┛', '━', '┃'⟩,
   ⟨'╔', '╗', '╚', '╝', '═', '║'⟩,
   ⟨'╭', '╮', '╰', '╯', '─', '│'⟩,
   ⟨'+', '+', '+', '+', '-', '|'⟩]

/-- Scan the top row to the right of a top-left corner for the top-right
corner; any character is permitted in between (titles).  Returns the
border width, `1` when no corner was found (the source's sentinel). -/
def findTopRightWidth (g : DetGrid) (row startCol : Nat) (set : BoxCharSet) : Nat :=
  match (List.range' (startCol + 1) (g.cols - (startCol + 1))).find? (fun col =>
      match g.cell row col with
      | some cell => cell.character = set.topRight
      | none => false) with
  | some col => col - startCol + 1
  | none => 1

/-- Scan down the first column for the bottom-left corner: accept the
vertical character or a space in between, reject anything else.  Returns
the bottom row; `none` on rejection or when no corner was found (both of
which make the source return no border). -/
def scanLeftColumn (g : DetGrid) (startCol : Nat) (set : BoxCharSet) : List Nat → Option Nat
  | [] => none
  | row :: rest =>
    match g.cell row startCol with
    | some cell =>
      if cell.character = set.bottomLeft then some row
      else if cell.character ≠ set.vertical ∧ cell.character ≠ ' ' then none
      else scanLeftColumn g startCol set rest
    | none => scanLeftColumn g startCol set rest

/-- Title-extraction loop over the top row between the corners
(`BorderDetector::extract_title`): skip leading horizontals, accumulate
once a non-horizontal non-space appears, stop at the next horizontal run. -/
def titleLoop (g : DetGrid) (row : Nat) (set : BoxCharSet) :
    List Nat → List Char → Bool → List Char
  | [], title, _ => title
  | c :: rest, title, inTitle =>
    match g.cell row c with
    | some cell =>
      let ch := cell.character
      if ch = set.horizontal then
        if inTitle ∧ trimChars title ≠ [] then title
        else titleLoop g row set rest title inTitle
      else if ch ≠ ' ' ∨ inTitle then
        titleLoop g row set rest (title ++ [ch]) true
      else titleLoop g row set rest title inTitle
    | none => titleLoop g row set rest title inTitle

/-- Extract the trimmed title of a border's top row; empty becomes `none`. -/
def extractTitle (g : DetGrid) (row col width : Nat) (set : BoxCharSet) : Option String :=
  let title := titleLoop g row set (List.range' (col + 1) (width - 2)) [] false
  let t := trimChars title
  if t = [] then none else some (String.mk t)

/-- Trace a border from a candidate top-left corner
(`BorderDetector::trace_border`).  The reference id is
`border_<row*1000+col>`, computed in `u16` arithmetic as in the source. -/
def traceBorder (g : DetGrid) (startRow startCol : Nat) (set : BoxCharSet) :
    Option DetectedElement :=
  let width := findTopRightWidth g startRow startCol set
  if width = 1 then none
  else
    match scanLeftColumn g startCol set
        (List.range' (startRow + 1) (g.rows - (startRow + 1))) with
    | none => none
    | some bottomRow =>
      let height := bottomRow - startRow + 1
      let rightCol := startCol + width - 1
      match g.cell bottomRow rightCol with
      | none => none
      | some cell =>
        if cell.character = set.bottomRight then
          let title := extractTitle g startRow startCol width set
          let bounds : Bounds := ⟨startRow, startCol, width, height⟩
          let refId := "border_" ++ toString ((startRow * 1000 + startCol) % 65536)
          some { element := .border refId bounds title []
                 bounds := bounds
                 confidence := .high }
        else none

/-- Area of a detected border's bounds, in `u16` arithmetic
(`filter_contained_borders`'s sort key). -/
def borderArea (d : DetectedElement) : Nat :=
  d.bounds.width * d.bounds.height % 65536

/-- Insert an element into a sorted list after every element that the
comparator keeps before it (the insertion step of a stable sort). -/
def stableInsert (le : DetectedElement → DetectedElement → Bool) (a : DetectedElement) :
    List DetectedElement → List DetectedElement
  | [] => [a]
  | b :: bs => if le b a then b :: stableInsert le a bs else a :: b :: bs

/-- Stable sort by a comparator: the canonical stable sort (sorted by the
comparator, ties in original order), which is what the source's stable
`Vec::sort_by` produces for the total area ordering used below. -/
def stableSortBy (le : DetectedElement → DetectedElement → Bool)
    (l : List DetectedElement) : List DetectedElement :=
  l.foldl (fun acc a => stableInsert le a acc) []

/-- Keep only borders not completely contained in an already-kept border,
considering larger areas first (`BorderDetector::filter_contained_borders`;
the source's `sort_by` is a stable sort, descending by area). -/
def filterContainedBorders (borders : List DetectedElement) : List DetectedElement :=
  let sorted := stableSortBy (fun a b => decide (borderArea b ≤ borderArea a)) borders
  sorted.foldl (fun filtered border =>
    if filtered.any (fun outer =>
        decide (border.bounds.row ≥ outer.bounds.row) &&
        decide (border.bounds.col ≥ outer.bounds.col) &&
        decide (border.bounds.row + border.bounds.height ≤
          outer.bounds.row + outer.bounds.height) &&
        decide (border.bounds.col + border.bounds.width ≤
          outer.bounds.col + outer.bounds.width)) then
      filtered
    else filtered ++ [border]) []

/-- Border detection (`BorderDetector::detect`): scan every unclaimed cell
for a top-left corner of any box set, trace, then filter nested borders. -/
def borderDetect (g : DetGrid) (ctx : DetectionContext) : List DetectedElement :=
  let borders := (List.range g.rows).flatMap (fun row =>
    (List.range g.cols).flatMap (fun col =>
      if ctx.isRegionClaimed ⟨row, col, 1, 1⟩ then []
      else
        match g.cell row col with
        | some cell =>
          boxSets.flatMap (fun set =>
            if cell.character = set.topLeft then
              match traceBorder g row col set with
              | some b => [b]
              | none => []
            else [])
        | none => []))
  filterContainedBorders borders

/-- The border detector as a pipeline entry (priority 100, enabled). -/
def borderDetector : AbsDetector :=
  { detect := borderDetect }

/-! ## Menu detector (`terminal-mcp-detector/src/detectors/menu.rs`)

`MenuDetector::new` fixes `min_items = 2`; the literal `2` below is that
constant. -/

/-- Prefix markers that indicate selection (`SelectionIndicators`). -/
def prefixMarkers : List Char :=
  ['>', '→', '▶', '•', '*', '►']

/-- Extract the text of one row inside a region
(`MenuDetector::extract_row_text`); cells outside the grid contribute
nothing. -/
def extractRowText (g : DetGrid) (row startCol width : Nat) : List Char :=
  (List.range width).filterMap (fun colOffset =>
    (g.cell row (startCol + colOffset)).map (·.character))

/-- Whether more than half of a row's non-space cells inside the region
satisfy an attribute predicate (`MenuDetector::row_has_attribute`). -/
def rowHasAttribute (g : DetGrid) (row : Nat) (region : Bounds)
    (p : CellAttributes → Bool) : Bool :=
  let counts := (List.range region.width).foldl (fun (acc : Nat × Nat) colOffset =>
    match g.cell row (region.col + colOffset) with
    | some cell =>
      if cell.character ≠ ' ' then
        (acc.1 + (if p cell.attrs then 1 else 0), acc.2 + 1)
      else acc
    | none => acc) (0, 0)
  decide (0 < counts.2) && decide (counts.2 / 2 < counts.1)

/-- Strategy 1: reverse-video selection (`detect_by_reverse_video`). -/
def detectByReverseVideo (g : DetGrid) (region : Bounds) :
    Option (Nat × List MenuItem) :=
  let st := (List.range region.height).foldl
    (fun (acc : List MenuItem × Option Nat) rowOffset =>
      let row := region.row + rowOffset
      let text := extractRowText g row region.col region.width
      if trimChars text = [] then acc
      else
        let hasReverse := rowHasAttribute g row region (·.reverse)
        let sel := if hasReverse then some acc.1.length else acc.2
        (acc.1 ++ [{ refId := "", text := String.mk (trimChars text), selected := hasReverse }],
          sel)) ([], none)
  if st.1.length ≥ 2 then st.2.map (fun idx => (idx, st.1)) else none

/-- Strategy 2: prefix-marker selection (`detect_by_prefix_marker`). -/
def detectByPrefixMarker (g : DetGrid) (region : Bounds) :
    Option (Nat × List MenuItem) :=
  let st := (List.range region.height).foldl
    (fun (acc : List MenuItem × Option Nat) rowOffset =>
      let row := region.row + rowOffset
      let text := extractRowText g row region.col region.width
      let trimmed := trimChars text
      if trimmed = [] then acc
      else
        let isSelected :=
          match trimmed.head? with
          | some c => prefixMarkers.contains c
          | none => false
        let itemText := if isSelected then trimChars (trimmed.drop 1) else trimmed
        let sel := if isSelected then some acc.1.length else acc.2
        (acc.1 ++ [{ refId := "", text := String.mk itemText, selected := isSelected }],
          sel)) ([], none)
  if st.1.length ≥ 2 then st.2.map (fun idx => (idx, st.1)) else none

/-- Strategy 3: cursor-within-region selection (`detect_by_cursor`). -/
def detectByCursor (g : DetGrid) (region : Bounds) (cursor : Position) :
    Option (Nat × List MenuItem) :=
  if ¬ region.containsPos cursor then none
  else
    let cursorRowOffset := cursor.row - region.row
    let items := (List.range region.height).foldl
      (fun (acc : List MenuItem) rowOffset =>
        let row := region.row + rowOffset
        let text := extractRowText g row region.col region.width
        if trimChars text = [] then acc
        else
          acc ++ [{ refId := ""
                    text := String.mk (trimChars text)
                    selected := rowOffset = cursorRowOffset }]) []
    if items.length ≥ 2 then
      some ((items.findIdx? (·.selected)).getD 0, items)
    else none

/-- Try the three strategies in order and build the menu element
(`MenuDetector::detect_menu_in_region`).  The reference id is
`menu_<row>_<col>` of the region's top-left corner. -/
def detectMenuInRegion (g : DetGrid) (region : Bounds) (cursor : Position) :
    Option DetectedElement :=
  let result :=
    ((detectByReverseVideo g region).orElse (fun _ => detectByPrefixMarker g region)).orElse
      (fun _ => detectByCursor g region cursor)
  result.map (fun si =>
    let refId := "menu_" ++ toString region.row ++ "_" ++ toString region.col
    { element := .menu refId region si.2 si.1
      bounds := region
      confidence := .high })

/-- Candidate menu regions: maximal groups of consecutive rows with
content, of height at least two, full width
(`MenuDetector::find_menu_regions`). -/
def findMenuRegions (g : DetGrid) : List Bounds :=
  let st := (List.range g.rows).foldl
    (fun (acc : List Bounds × Option Nat) row =>
      let text := extractRowText g row 0 g.cols
      let hasContent := trimChars text ≠ []
      if hasContent then
        match acc.2 with
        | none => (acc.1, some row)
        | some _ => acc
      else
        match acc.2 with
        | some start =>
          let height := row - start
          if height ≥ 2 then (acc.1 ++ [⟨start, 0, g.cols, height⟩], none)
          else (acc.1, none)
        | none => acc) ([], none)
  match st.2 with
  | some start =>
    let height := g.rows - start
    if height ≥ 2 then st.1 ++ [⟨start, 0, g.cols, height⟩] else st.1
  | none => st.1

/-- Menu detection (`MenuDetector::detect`): try each unclaimed candidate
region. -/
def menuDetect (g : DetGrid) (ctx : DetectionContext) : List DetectedElement :=
  (findMenuRegions g).foldl (fun results region =>
    if ctx.isRegionClaimed region then results
    else
      match detectMenuInRegion g region ctx.cursor with
      | some m => results ++ [m]
      | none => results) []

/-- The menu detector as a pipeline entry (priority 80, enabled). -/
def menuDetector : AbsDetector :=
  { detect := menuDetect }

/-! ## Scenario S2: a 24×80 grid with a light-box border whose interior
rows are menu items, the "Start Service" row rendered in reverse video. -/

/-- Row texts of the S2 screen (wide 22, at the top-left corner). -/
def s2RowText (r : Nat) : String :=
  if r = 0 then "┌────────────────────┐"
  else if r = 1 then "│  View Status       │"
  else if r = 2 then "│> Start Service     │"
  else if r = 3 then "│  Stop Service      │"
  else if r = 4 then "│  Quit              │"
  else if r = 5 then "└────────────────────┘"
  else ""

/-- The S2 grid: 24×80, the box above at the origin, the interior of row 2
(the "Start Service" row) carrying the reverse attribute. -/
def s2Grid : DetGrid :=
  { rows := 24
    cols := 80
    cell := fun r c =>
      if r < 24 ∧ c < 80 then
        some { character := ((s2RowText r).data.getD c ' ')
               fg := .default
               bg := .default
               attrs := if r = 2 ∧ 1 ≤ c ∧ c ≤ 20 then { reverse := true } else {} }
      else none }

/-- The border element the pipeline detects on the S2 grid. -/
def s2Border : DetectedElement :=
  { element := .border "border_0" ⟨0, 0, 22, 6⟩ none []
    bounds := ⟨0, 0, 22, 6⟩
    confidence := .high }

/-- C1 counterexample: on the S2 grid (24×80, light-box border, interior
menu rows, "Start Service" row in reverse video), running the detection
pipeline with the border and menu detectors yields no Menu element at all:
the menu detector's full-width candidate region intersects the bounds
already claimed by the border, so the claimed "a Menu inside the border
with selected = 1" is false. -/
theorem c1_s2_counterexample :
    (pipelineDetect [borderDetector, menuDetector] s2Grid ⟨0, 0⟩).all
      (fun d => d.element.typeName != "menu") = true := by
  decide

/-- C1 (amended): on the S2 grid, the detection pipeline with the border
and menu detectors yields exactly one element: the Border with bounds
(0,0) 22×6, no title and High confidence.  No Menu is emitted, because the
menu detector's candidate region (the full-width block of non-empty rows
covering the box) intersects the border's claimed bounds and is skipped. -/
theorem c1_s2_pipeline :
    pipelineDetect [borderDetector, menuDetector] s2Grid ⟨0, 0⟩ = [s2Border] := by
  decide

/-! ## Region claiming across the pipeline (spec section 4.6) -/

/-- Pairwise disjointness of the bounds in a detection output list. -/
def pairwiseDisjointB : List DetectedElement → Bool
  | [] => true
  | e :: rest => rest.all (fun f => !(e.bounds.intersects f.bounds)) && pairwiseDisjointB rest

/-- The detector contract of the spec, evaluated along the actual run:
every element a detector emits avoids every region that was claimed when
the detector ran.  The claimed-region list evolves exactly as in
`pipelineGo`. -/
def claimRespecting (g : DetGrid) (cursor : Position) :
    List AbsDetector → List Bounds → Bool
  | [], _ => true
  | d :: rest, claimed =>
    (!d.enabled ||
      (d.detect g ⟨claimed, cursor⟩).all (fun e =>
        claimed.all (fun b => !(e.bounds.intersects b)))) &&
    claimRespecting g cursor rest
      (if d.enabled then
        claimed ++ (d.detect g ⟨claimed, cursor⟩).map (·.bounds)
      else claimed)

/-- Along the actual run, each detector's own batch is pairwise disjoint. -/
def batchesDisjoint (g : DetGrid) (cursor : Position) :
    List AbsDetector → List Bounds → Bool
  | [], _ => true
  | d :: rest, claimed =>
    (!d.enabled || pairwiseDisjointB (d.detect g ⟨claimed, cursor⟩)) &&
    batchesDisjoint g cursor rest
      (if d.enabled then
        claimed ++ (d.detect g ⟨claimed, cursor⟩).map (·.bounds)
      else claimed)

theorem pairwiseDisjointB_append {l1 l2 : List DetectedElement}
    (h1 : pairwiseDisjointB l1 = true) (h2 : pairwiseDisjointB l2 = true)
    (h12 : ∀ a ∈ l1, ∀ b ∈ l2, a.bounds.intersects b.bounds = false) :
    pairwiseDisjointB (l1 ++ l2) = true := by
  induction l1 with
  | nil => simpa using h2
  | cons e tl ih =>
    simp only [pairwiseDisjointB, Bool.and_eq_true, List.all_eq_true] at h1
    simp only [List.cons_append, pairwiseDisjointB, Bool.and_eq_true, List.all_eq_true]
    refine ⟨?_, ih h1.2 (fun a ha => h12 a (by simp [ha]))⟩
    intro f hf
    rcases List.mem_append.mp hf with hf | hf
    · exact h1.1 f hf
    · simp [h12 e (by simp) f hf]

theorem pipelineGo_pairwiseB (g : DetGrid) (cursor : Position) :
    ∀ (ds : List AbsDetector) (claimed : List Bounds) (acc : List DetectedElement),
      claimRespecting g cursor ds claimed = true →
      batchesDisjoint g cursor ds claimed = true →
      pairwiseDisjointB acc = true →
      (∀ e ∈ acc, e.bounds ∈ claimed) →
      pairwiseDisjointB (pipelineGo g ds ⟨claimed, cursor⟩ acc) = true := by
  intro ds
  induction ds with
  | nil =>
    intro claimed acc _ _ hacc _
    exact hacc
  | cons d rest ih =>
    intro claimed acc hclaim hbatch hacc hmem
    simp only [claimRespecting, Bool.and_eq_true] at hclaim
    simp only [batchesDisjoint, Bool.and_eq_true] at hbatch
    show pairwiseDisjointB (pipelineGo g (d :: rest) ⟨claimed, cursor⟩ acc) = true
    rw [pipelineGo]
    cases hd : d.enabled with
    | false =>
      rw [if_neg (by simp [hd])]
      have hclaim2 := hclaim.2
      have hbatch2 := hbatch.2
      rw [if_neg (by simp [hd])] at hclaim2 hbatch2
      exact ih claimed acc hclaim2 hbatch2 hacc hmem
    | true =>
      rw [if_pos (by simp [hd])]
      dsimp only
      have hclaim2 := hclaim.2
      have hbatch2 := hbatch.2
      rw [if_pos (by simp [hd])] at hclaim2 hbatch2
      have hbatchOK : pairwiseDisjointB (d.detect g ⟨claimed, cursor⟩) = true := by
        have := hbatch.1
        rw [hd] at this
        simpa using this
      have hclaimOK : ∀ e ∈ d.detect g ⟨claimed, cursor⟩, ∀ b ∈ claimed,
          e.bounds.intersects b = false := by
        have := hclaim.1
        rw [hd] at this
        simp only [Bool.not_true, Bool.false_or, List.all_eq_true, Bool.not_eq_true'] at this
        exact this
      apply ih
      · exact hclaim2
      · exact hbatch2
      · apply pairwiseDisjointB_append hacc hbatchOK
        intro a ha b hb
        rw [Bounds.intersects_comm]
        exact hclaimOK b hb a.bounds (hmem a ha)
      · intro e he
        rcases List.mem_append.mp he with he | he
        · exact List.mem_append.mpr (Or.inl (hmem e he))
        · exact List.mem_append.mpr (Or.inr (List.mem_map_of_mem _ he))

/-- C2 counterexample: a single enabled detector that emits two mutually
overlapping elements satisfies the claim's hypothesis (it emits nothing
that intersects a region claimed by an earlier detector — there is none),
yet the pipeline output is not pairwise disjoint. -/
theorem c2_region_claiming_counterexample :
    claimRespecting
        ⟨4, 4, fun r c => if r < 4 ∧ c < 4 then some Cell.default else none⟩ ⟨0, 0⟩
        [⟨true, fun _ _ =>
          [⟨.text "text_a" ⟨0, 0, 2, 2⟩ "", ⟨0, 0, 2, 2⟩, .low⟩,
           ⟨.text "text_b" ⟨1, 1, 2, 2⟩ "", ⟨1, 1, 2, 2⟩, .low⟩]⟩] [] = true ∧
    pairwiseDisjointB
        (pipelineDetect
          [⟨true, fun _ _ =>
            [⟨.text "text_a" ⟨0, 0, 2, 2⟩ "", ⟨0, 0, 2, 2⟩, .low⟩,
             ⟨.text "text_b" ⟨1, 1, 2, 2⟩ "", ⟨1, 1, 2, 2⟩, .low⟩]⟩]
          ⟨4, 4, fun r c => if r < 4 ∧ c < 4 then some Cell.default else none⟩
          ⟨0, 0⟩) = false := by
  exact ⟨by decide, by decide⟩

/-- C2 (amended): for every grid, cursor and detector list, if along the
actual run each detector emits no element whose bounds intersect a region
claimed by an earlier detector AND each detector's own batch is pairwise
disjoint, then the bounds of any two distinct elements of the pipeline
output are disjoint.  The second hypothesis is needed: the claim as stated
fails when one detector emits two overlapping elements (see the
counterexample). -/
theorem c2_region_claiming (ds : List AbsDetector) (g : DetGrid) (cursor : Position)
    (h1 : claimRespecting g cursor ds [] = true)
    (h2 : batchesDisjoint g cursor ds [] = true) :
    pairwiseDisjointB (pipelineDetect ds g cursor) = true := by
  unfold pipelineDetect
  exact pipelineGo_pairwiseB g cursor ds [] [] h1 h2 rfl (by intro e he; cases he)

/-- Witness for C2: two enabled detectors with disjoint constant outputs. -/
theorem c2_region_claiming_witness :
    claimRespecting
        ⟨4, 4, fun r c => if r < 4 ∧ c < 4 then some Cell.default else none⟩ ⟨0, 0⟩
        [⟨true, fun _ _ => [⟨.text "text_a" ⟨0, 0, 4, 1⟩ "", ⟨0, 0, 4, 1⟩, .low⟩]⟩,
         ⟨true, fun _ _ => [⟨.text "text_b" ⟨2, 0, 4, 1⟩ "", ⟨2, 0, 4, 1⟩, .low⟩]⟩] [] = true ∧
    batchesDisjoint
        ⟨4, 4, fun r c => if r < 4 ∧ c < 4 then some Cell.default else none⟩ ⟨0, 0⟩
        [⟨true, fun _ _ => [⟨.text "text_a" ⟨0, 0, 4, 1⟩ "", ⟨0, 0, 4, 1⟩, .low⟩]⟩,
         ⟨true, fun _ _ => [⟨.text "text_b" ⟨2, 0, 4, 1⟩ "", ⟨2, 0, 4, 1⟩, .low⟩]⟩] [] = true ∧
    pairwiseDisjointB
        (pipelineDetect
          [⟨true, fun _ _ => [⟨.text "text_a" ⟨0, 0, 4, 1⟩ "", ⟨0, 0, 4, 1⟩, .low⟩]⟩,
           ⟨true, fun _ _ => [⟨.text "text_b" ⟨2, 0, 4, 1⟩ "", ⟨2, 0, 4, 1⟩, .low⟩]⟩]
          ⟨4, 4, fun r c => if r < 4 ∧ c < 4 then some Cell.default else none⟩
          ⟨0, 0⟩) = true :=
  ⟨by decide, by decide,
    c2_region_claiming
      [⟨true, fun _ _ => [⟨.text "text_a" ⟨0, 0, 4, 1⟩ "", ⟨0, 0, 4, 1⟩, .low⟩]⟩,
       ⟨true, fun _ _ => [⟨.text "text_b" ⟨2, 0, 4, 1⟩ "", ⟨2, 0, 4, 1⟩, .low⟩]⟩]
      ⟨4, 4, fun r c => if r < 4 ∧ c < 4 then some Cell.default else none⟩
      ⟨0, 0⟩ (by decide) (by decide)⟩

/-! ## Reference ids (spec section 3.5) -/

/-- A 3×12 grid with a light box whose top-left corner is at (0,2). -/
def c3Grid : DetGrid :=
  { rows := 3
    cols := 12
    cell := fun r c =>
      if r < 3 ∧ c < 12 then
        some { character :=
                 ((if r = 0 then "  ┌───┐"
                   else if r = 1 then "  │   │"
                   else "  └───┘" : String).data.getD c ' ')
               fg := .default
               bg := .default
               attrs := {} }
      else none }

/-- C3 counterexample: a detection run over a grid with a single border at
column 2 produces the ref id `border_2`, derived from the element's
position, not `border_1` as a freshly reset per-type counter would
produce; so ref ids are not per-type counter values. -/
theorem c3_refid_counterexample :
    (pipelineDetect [borderDetector] c3Grid ⟨0, 0⟩).map (fun d => d.element.refId)
        = ["border_2"] ∧
    ("border_2" : String) ≠ "border_1" := by
  exact ⟨by decide, by decide⟩

/-- C3 (amended): the border and menu detectors derive ref ids from the
element's position — `border_<row*1000+col>` (in `u16` arithmetic) and
`menu_<row>_<col>` — rather than from the per-type counter; the
`RefIdGenerator` itself (unused by these detectors) does produce
`<type>_<n>` with a per-type counter that increments by one per call and
is cleared by `reset`. -/
theorem c3_refid_forms :
    (∀ (g : DetGrid) (r c : Nat) (set : BoxCharSet) (d : DetectedElement),
        traceBorder g r c set = some d →
        d.element.refId = "border_" ++ toString ((r * 1000 + c) % 65536)) ∧
    (∀ (g : DetGrid) (region : Bounds) (cursor : Position) (d : DetectedElement),
        detectMenuInRegion g region cursor = some d →
        d.element.refId = "menu_" ++ toString region.row ++ "_" ++ toString region.col) ∧
    (∀ (gen : RefIdGenerator) (t : String),
        (gen.next t).1 = t ++ "_" ++ toString (gen.counters t + 1) ∧
        (gen.next t).2.counters t = gen.counters t + 1 ∧
        gen.reset.counters t = 0) := by
  refine ⟨?_, ?_, ?_⟩
  · intro g r c set d h
    unfold traceBorder at h
    dsimp only at h
    split at h
    · exact Option.noConfusion h
    · split at h
      · exact Option.noConfusion h
      · split at h
        · exact Option.noConfusion h
        · split at h
          · cases h
            rfl
          · exact Option.noConfusion h
  · intro g region cursor d h
    unfold detectMenuInRegion at h
    rcases Option.map_eq_some'.mp h with ⟨si, _, rfl⟩
    rfl
  · intro gen t
    refine ⟨rfl, ?_, rfl⟩
    simp [RefIdGenerator.next]

/-- Witness for C3's amended statement: the concrete border of `c3Grid`
and a concrete generator call. -/
theorem c3_refid_forms_witness :
    traceBorder c3Grid 0 2 ⟨'┌', '┐', '└', '┘', '─', '│'⟩ =
      some ⟨.border "border_2" ⟨0, 2, 5, 3⟩ none [], ⟨0, 2, 5, 3⟩, .high⟩ ∧
    (Element.border "border_2" ⟨0, 2, 5, 3⟩ none []).refId =
      "border_" ++ toString ((0 * 1000 + 2) % 65536) ∧
    (RefIdGenerator.new.next "menu").1 = "menu" ++ "_" ++ toString (RefIdGenerator.new.counters "menu" + 1) :=
  ⟨by decide,
    c3_refid_forms.1 c3Grid 0 2 ⟨'┌', '┐', '└', '┘', '─', '│'⟩
      ⟨.border "border_2" ⟨0, 2, 5, 3⟩ none [], ⟨0, 2, 5, 3⟩, .high⟩ (by decide),
    (c3_refid_forms.2.2 RefIdGenerator.new "menu").1⟩

/-! ## Navigation computer (`terminal-mcp-session/src/navigation.rs`) -/

/-- Rust `usize as i32`: reduce modulo `2^32` into the signed range. -/
def i32ofNat (n : Nat) : Int :=
  let m := n % 4294967296
  if m < 2147483648 then (m : Int) else (m : Int) - 4294967296

theorem i32ofNat_of_lt {n : Nat} (h : n < 2147483648) : i32ofNat n = n := by
  unfold i32ofNat
  rw [Nat.mod_eq_of_lt (by omega), if_pos h]

/-- Navigate within a menu to a target item
(`NavigationCalculator::navigate_menu`): `diff.abs()` arrow keys in the
right direction, then Enter. -/
def navigateMenu (items : List MenuItem) (currentSelected : Nat) (targetRef : String) :
    Except Error (List Key) :=
  match items.findIdx? (fun i => i.refId == targetRef) with
  | none => .error (.elementNotFound targetRef)
  | some targetIdx =>
    let diff : Int := i32ofNat targetIdx - i32ofNat currentSelected
    let keys : List Key :=
      if diff > 0 then List.replicate diff.toNat .down
      else if diff < 0 then List.replicate diff.natAbs .up
      else []
    .ok (keys ++ [.enter])

/-- Rust `str::starts_with`, on the character lists (kernel-reducible,
unlike `String.startsWith`). -/
def strStartsWith (s pre : String) : Bool :=
  (stripLit pre.data s.data).isSome

/-- Calculate keystrokes to reach and activate a target element
(`NavigationCalculator::calculate`): menu items are located through the
first Menu whose items contain the target ref; buttons answer Enter,
checkboxes Space, anything else is not clickable. -/
def navCalculate (snapshot : TerminalStateTree) (targetRef : String) :
    Except Error (List Key) :=
  if strStartsWith targetRef "item_" then
    match snapshot.elements.find? (fun e =>
      match e with
      | .menu _ _ items _ => items.any (fun i => i.refId == targetRef)
      | _ => false) with
    | some (.menu _ _ items selected) => navigateMenu items selected targetRef
    | _ => .error (.elementNotFound targetRef)
  else
    match snapshot.findElement targetRef with
    | none => .error (.elementNotFound targetRef)
    | some target =>
      match target with
      | .button _ _ _ => .ok [.enter]
      | .checkbox _ _ _ _ => .ok [.space]
      | _ => .error (.invalidInput ("Element type '" ++ target.typeName ++ "' is not clickable"))

/-- C4: for every snapshot whose elements contain a Menu holding the
target item ref (the first such menu having the given items and selected
index, both below `2^31` so the source's `as i32` casts are lossless), the
navigation computer returns exactly `|target_idx − selected|` navigation
keys — all Down when the target index is greater, all Up when smaller,
none when equal — followed by exactly one Enter. -/
theorem c4_navigation_determinism (snapshot : TerminalStateTree) (targetRef : String)
    (menuRef : String) (menuBounds : Bounds) (items : List MenuItem) (selected : Nat)
    (targetIdx : Nat)
    (hstart : strStartsWith targetRef "item_" = true)
    (hfind : snapshot.elements.find? (fun e =>
      match e with
      | .menu _ _ items _ => items.any (fun i => i.refId == targetRef)
      | _ => false) = some (.menu menuRef menuBounds items selected))
    (hidx : items.findIdx? (fun i => i.refId == targetRef) = some targetIdx)
    (hlen : targetIdx < 2147483648) (hsel : selected < 2147483648) :
    navCalculate snapshot targetRef = .ok
      ((if selected ≤ targetIdx then List.replicate (targetIdx - selected) Key.down
        else List.replicate (selected - targetIdx) Key.up) ++ [Key.enter]) := by
  unfold navCalculate
  rw [if_pos hstart, hfind]
  dsimp only
  unfold navigateMenu
  rw [hidx]
  dsimp only
  rw [i32ofNat_of_lt hlen, i32ofNat_of_lt hsel]
  rcases lt_trichotomy selected targetIdx with h | h | h
  · rw [if_pos (by omega : (0 : Int) < (targetIdx : Int) - (selected : Int))]
    rw [if_pos (by omega : selected ≤ targetIdx)]
    rw [show ((targetIdx : Int) - (selected : Int)).toNat = targetIdx - selected from by omega]
  · subst h
    rw [if_neg (by omega), if_neg (by omega), if_pos (le_refl selected)]
    simp
  · rw [if_neg (by omega), if_pos (by omega : (targetIdx : Int) - (selected : Int) < 0)]
    rw [if_neg (by omega : ¬ selected ≤ targetIdx)]
    rw [show ((targetIdx : Int) - (selected : Int)).natAbs = selected - targetIdx from by omega]

/-- Witness for C4: the four-item menu of the source's own test, clicking
`item_2` from selection 0 yields Down, Down, Enter. -/
theorem c4_navigation_determinism_witness :
    navCalculate
      { sessionId := "test"
        dimensions := ⟨24, 80⟩
        cursor := ⟨0, 0⟩
        timestamp := ""
        elements := [.menu "menu_0" ⟨2, 5, 30, 5⟩
          [⟨"item_0", "View Status", true⟩, ⟨"item_1", "Start Service", false⟩,
           ⟨"item_2", "Stop Service", false⟩, ⟨"item_3", "Quit", false⟩] 0]
        rawText := ""
        ansiBuffer := none } "item_2" =
      .ok ((if 0 ≤ 2 then List.replicate (2 - 0) Key.down
            else List.replicate (0 - 2) Key.up) ++ [Key.enter]) :=
  c4_navigation_determinism
    { sessionId := "test"
      dimensions := ⟨24, 80⟩
      cursor := ⟨0, 0⟩
      timestamp := ""
      elements := [.menu "menu_0" ⟨2, 5, 30, 5⟩
        [⟨"item_0", "View Status", true⟩, ⟨"item_1", "Start Service", false⟩,
         ⟨"item_2", "Stop Service", false⟩, ⟨"item_3", "Quit", false⟩] 0]
      rawText := ""
      ansiBuffer := none } "item_2" "menu_0" ⟨2, 5, 30, 5⟩
    [⟨"item_0", "View Status", true⟩, ⟨"item_1", "Start Service", false⟩,
     ⟨"item_2", "Stop Service", false⟩, ⟨"item_3", "Quit", false⟩] 0 2
    (by decide) (by decide) (by decide) (by decide) (by decide)

/-! ## Session manager (`terminal-mcp-session/src/manager.rs`) -/

/-- Session-manager configuration. -/
structure SessionManagerConfig where
  maxSessions : Nat
  defaultRows : Nat
  defaultCols : Nat

/-- Create a session (`SessionManager::create_session`): fail with the
session-limit error when the registry holds at least `max_sessions`
entries, leaving the registry unchanged; otherwise build the session with
the given or default dimensions and store it.  The registry is the list of
stored sessions and `create` abstracts `Session::create` (which spawns a
PTY and can fail). -/
def createSession {σ : Type} (cfg : SessionManagerConfig) (sessions : List σ)
    (create : Dimensions → Except Error σ) (dims? : Option Dimensions) :
    Except Error σ × List σ :=
  if sessions.length ≥ cfg.maxSessions then
    (.error (.sessionLimitReached cfg.maxSessions), sessions)
  else
    let dims := dims?.getD ⟨cfg.defaultRows, cfg.defaultCols⟩
    match create dims with
    | .error e => (.error e, sessions)
    | .ok s => (.ok s, sessions ++ [s])

/-- C9: session creation fails with the session-limit-reached error exactly
when the number of stored sessions has reached the configured maximum
(provided the underlying session constructor never itself reports that
error, as the source's constructor cannot), the registry is unchanged on
that failure, and otherwise a successfully constructed session is stored
and returned. -/
theorem c9_session_limit {σ : Type} (cfg : SessionManagerConfig) (sessions : List σ)
    (create : Dimensions → Except Error σ) (dims? : Option Dimensions) :
    (sessions.length ≥ cfg.maxSessions →
      createSession cfg sessions create dims? =
        (.error (.sessionLimitReached cfg.maxSessions), sessions)) ∧
    (sessions.length < cfg.maxSessions → ∀ s,
      create (dims?.getD ⟨cfg.defaultRows, cfg.defaultCols⟩) = .ok s →
      createSession cfg sessions create dims? = (.ok s, sessions ++ [s])) ∧
    (sessions.length < cfg.maxSessions → ∀ e,
      create (dims?.getD ⟨cfg.defaultRows, cfg.defaultCols⟩) = .error e →
      createSession cfg sessions create dims? = (.error e, sessions)) ∧
    ((∀ d m, create d ≠ .error (.sessionLimitReached m)) →
      ((∃ m, (createSession cfg sessions create dims?).1 =
          .error (.sessionLimitReached m)) ↔ sessions.length ≥ cfg.maxSessions)) := by
  refine ⟨?_, ?_, ?_, ?_⟩
  · intro h
    unfold createSession
    rw [if_pos h]
  · intro h s hok
    unfold createSession
    rw [if_neg (by omega)]
    dsimp only
    rw [hok]
  · intro h e herr
    unfold createSession
    rw [if_neg (by omega)]
    dsimp only
    rw [herr]
  · intro hcreate
    constructor
    · rintro ⟨m, hm⟩
      by_contra hlt
      unfold createSession at hm
      rw [if_neg hlt] at hm
      dsimp only at hm
      rcases hc : create (dims?.getD ⟨cfg.defaultRows, cfg.defaultCols⟩) with e | s
      · rw [hc] at hm
        dsimp only at hm
        cases hm
        exact hcreate _ _ hc
      · rw [hc] at hm
        cases hm
    · intro h
      refine ⟨cfg.maxSessions, ?_⟩
      unfold createSession
      rw [if_pos h]

/-- Witness for C9: a one-slot registry that is full rejects, an empty
registry stores and returns the new session. -/
theorem c9_session_limit_witness :
    createSession ⟨1, 24, 80⟩ [0] (fun _ => .ok (7 : Nat)) none =
      (.error (.sessionLimitReached 1), [0]) ∧
    createSession ⟨1, 24, 80⟩ [] (fun _ => .ok (7 : Nat)) none = (.ok 7, [7]) :=
  ⟨(c9_session_limit ⟨1, 24, 80⟩ [0] (fun _ => .ok (7 : Nat)) none).1 (by decide),
    (c9_session_limit ⟨1, 24, 80⟩ [] (fun _ => .ok (7 : Nat)) none).2.1 (by decide) 7 rfl⟩

/-! ## Wait-condition check (`terminal-mcp-session/src/wait.rs`) -/

/-- Condition to wait for in terminal state. -/
structure WaitCondition where
  text : Option String
  elementType : Option String
  gone : Bool
  idle : Bool
  timeoutMs : Nat
  pollIntervalMs : Nat

/-- Condition check (`Session::check_condition`).  The external regex
engine is abstracted as `compile`: `none` models a pattern that fails to
compile, and a compiled regex is its match predicate on the searched
text. -/
def checkCondition (compile : String → Option (String → Bool))
    (snapshot : TerminalStateTree) (cond : WaitCondition) : Except Error Bool :=
  match cond.text with
  | some pattern =>
    match compile pattern with
    | none => .error (.invalidInput ("Invalid regex: " ++ pattern))
    | some isMatch =>
      let found := isMatch snapshot.rawText
      .ok (if cond.gone then !found else found)
  | none =>
    match cond.elementType with
    | some elemType =>
      let found := snapshot.elements.any (fun e => e.typeName == elemType)
      .ok (if cond.gone then !found else found)
    | none => .ok false

/-- C10: when the text field is set and its pattern compiles, the check's
outcome is exactly whether the regex matches the snapshot's raw text,
inverted when `gone` is set; any `element_type` in the same condition is
never consulted (changing it never changes the result); and a condition
with neither text nor element type set never evaluates as met. -/
theorem c10_text_condition (compile : String → Option (String → Bool))
    (snapshot : TerminalStateTree) (cond : WaitCondition) (p : String)
    (f : String → Bool) (cond2 : WaitCondition)
    (h1 : cond.text = some p) (h2 : compile p = some f)
    (h3 : cond2.text = none) (h4 : cond2.elementType = none) :
    checkCondition compile snapshot cond =
      .ok (if cond.gone then !(f snapshot.rawText) else f snapshot.rawText) ∧
    (∀ et, checkCondition compile snapshot { cond with elementType := et } =
      checkCondition compile snapshot cond) ∧
    checkCondition compile snapshot cond2 = .ok false := by
  refine ⟨?_, ?_, ?_⟩
  · unfold checkCondition
    rw [h1]
    dsimp only
    rw [h2]
  · intro et
    unfold checkCondition
    dsimp only
    rw [h1]
  · unfold checkCondition
    rw [h3, h4]

/-- Witness for C10: a substring-style matcher on a concrete snapshot. -/
theorem c10_text_condition_witness :
    checkCondition (fun pat => some (fun s => s == pat))
      { sessionId := "s", dimensions := ⟨24, 80⟩, cursor := ⟨0, 0⟩, timestamp := ""
        elements := [], rawText := "ready", ansiBuffer := none }
      ⟨some "ready", some "menu", false, false, 30000, 100⟩ =
      .ok (if false then !("ready" == "ready") else ("ready" == "ready")) ∧
    (∀ et,
      checkCondition (fun pat => some (fun s => s == pat))
        { sessionId := "s", dimensions := ⟨24, 80⟩, cursor := ⟨0, 0⟩, timestamp := ""
          elements := [], rawText := "ready", ansiBuffer := none }
        { (⟨some "ready", some "menu", false, false, 30000, 100⟩ : WaitCondition) with
            elementType := et } =
        checkCondition (fun pat => some (fun s => s == pat))
          { sessionId := "s", dimensions := ⟨24, 80⟩, cursor := ⟨0, 0⟩, timestamp := ""
            elements := [], rawText := "ready", ansiBuffer := none }
          ⟨some "ready", some "menu", false, false, 30000, 100⟩) ∧
    checkCondition (fun pat => some (fun s => s == pat))
      { sessionId := "s", dimensions := ⟨24, 80⟩, cursor := ⟨0, 0⟩, timestamp := ""
        elements := [], rawText := "ready", ansiBuffer := none }
      ⟨none, none, false, false, 30000, 100⟩ = .ok false :=
  c10_text_condition (fun pat => some (fun s => s == pat))
    { sessionId := "s", dimensions := ⟨24, 80⟩, cursor := ⟨0, 0⟩, timestamp := ""
      elements := [], rawText := "ready", ansiBuffer := none }
    ⟨some "ready", some "menu", false, false, 30000, 100⟩ "ready"
    (fun s => s == "ready") ⟨none, none, false, false, 30000, 100⟩
    rfl rfl rfl rfl

/-! ## Key round-trip theorems (spec section 4.3) -/

/-- C5 counterexample: `CtrlAlt('c')` is in the documented key list and
displays as `Ctrl+Alt+c`, but parsing that display form strips `Ctrl+`
first and takes the first character of the remainder `Alt+c`, yielding
`Ctrl('a')` — so `parse(display(K)) = K` fails for the CtrlAlt keys. -/
theorem c5_key_roundtrip_counterexample :
    (Key.ctrlAlt 'c') ∈ documentedKeys ∧
    Key.parse (Key.display (.ctrlAlt 'c')) = .ok (.ctrl 'a') ∧
    Key.ctrl 'a' ≠ Key.ctrlAlt 'c' :=
  ⟨by decide, by decide, by decide⟩

/-- C5 (amended): every key in the documented list encodes to exactly the
byte sequence of spec section 4.3, and every such key except the
CtrlAlt-wrapped ones satisfies `parse(display(K)) = K`; the CtrlAlt keys
instead reparse as `Ctrl('a')`. -/
theorem c5_key_roundtrip :
    documentedKeys.all (fun k =>
      (k.isCtrlAlt || decide (Key.parse (Key.display k) = .ok k)) &&
        decide (k.toEscapeSequence = specEncode k)) = true ∧
    lowercaseLetters.all (fun c =>
      decide (Key.parse (Key.display (.ctrlAlt c)) = .ok (.ctrl 'a'))) = true :=
  ⟨by decide, by decide⟩

/-! ## Progress percentage-text strategy
(`terminal-mcp-detector/src/detectors/progress.rs`)

The row text is embedded as its character list; character indices stand
for the source's byte indices.  The theorem below quantifies only over
texts whose prefix before the matched `%` is ASCII: there byte and
character indices coincide, `safe_slice` always succeeds, and
`char::is_numeric` agrees with `Char.isDigit` (the digit slice is forced
ASCII by a successful parse; the suffix after the `%` does not influence
the first emitted element in either the source or the model). -/

/-- First index satisfying a predicate (Rust `str::find`). -/
def findCharFrom (p : Char → Bool) : List Char → Option Nat
  | [] => none
  | c :: rest => if p c then some 0 else (findCharFrom p rest).map (· + 1)

/-- Last index satisfying a predicate (Rust `str::rfind`). -/
def rfindChar (p : Char → Bool) : List Char → Option Nat
  | [] => none
  | c :: rest =>
    match rfindChar p rest with
    | some i => some (i + 1)
    | none => if p c then some 0 else none

/-- Value of a digit string. -/
def digitsToNat (l : List Char) : Nat :=
  l.foldl (fun acc c => acc * 10 + (c.toNat - 48)) 0

/-- Model of `str::parse::<f32>` on the digit-and-dot slices the detector
produces, as an exact scaled integer (numerator, denominator `10^k` with
`k` fractional digits): digits with at most one decimal point and at
least one digit.  The theorem below hypothesises at most one fractional
digit; on that domain clamping and truncating the nearest `f32` gives the
same integer as the exact value, so the exact model is faithful: for
`n + m/10` with `n ≤ 100` the nearest `f32` is within `2^-17` (never
crossing an integer), and any value with integer part `≥ 101` — however
large, even when `f32` rounding is coarse — stays `≥ 101·(1 − 2^-24)`,
so both the source and the model clamp it to 100. -/
def parseDecimal? (l : List Char) : Option (Nat × Nat) :=
  if l.isEmpty then none
  else if l.all (fun c => c.isDigit || c = '.') && decide (l.count '.' ≤ 1) &&
      l.any (·.isDigit) then
    let intPart := l.takeWhile (· ≠ '.')
    let fracPart := (l.dropWhile (· ≠ '.')).drop 1
    some (digitsToNat intPart * 10 ^ fracPart.length + digitsToNat fracPart,
      10 ^ fracPart.length)
  else none

/-- The percent field: `percent_val.min(100.0) as u8` clamps at 100 and
then truncates toward zero; on the nonnegative parsed value `num/den`
that is the floor `num / den` (natural division) clamped at 100. -/
def percentCast (num den : Nat) : Nat :=
  min (num / den) 100

/-- The percentage-text scan loop (`detect_percentage_text`): find each
`%`, take the digits (and one possible decimal point) immediately before
it, parse, and emit a ProgressBar spanning the digits through the `%`.
The `fuel` argument only makes the loop structural; started at
`text.length + 1` it never runs out, since `search_start` strictly
increases each iteration. -/
def detectPercentageGo (text : List Char) (row : Nat) : Nat → Nat → List DetectedElement
  | 0, _ => []
  | fuel + 1, searchStart =>
    if searchStart ≤ text.length then
      match findCharFrom (fun c => c = '%') (text.drop searchStart) with
      | none => []
      | some percentPos =>
        let absPos := searchStart + percentPos
        let before := text.take absPos
        match rfindChar (fun c => !(c.isDigit || c = '.')) before with
        | some numStart =>
          let numStr := before.drop (numStart + 1)
          match parseDecimal? numStr with
          | some v =>
            { element := .progressBar
                ("progress_" ++ toString row ++ "_" ++ toString (numStart + 1))
                ⟨row, numStart + 1, absPos - numStart, 1⟩ (percentCast v.1 v.2)
              bounds := ⟨row, numStart + 1, absPos - numStart, 1⟩
              confidence := .medium } :: detectPercentageGo text row fuel (absPos + 1)
          | none => detectPercentageGo text row fuel (absPos + 1)
        | none =>
          if before.isEmpty then detectPercentageGo text row fuel (absPos + 1)
          else
            match parseDecimal? before with
            | some v =>
              { element := .progressBar ("progress_" ++ toString row ++ "_0")
                  ⟨row, 0, absPos + 1, 1⟩ (percentCast v.1 v.2)
                bounds := ⟨row, 0, absPos + 1, 1⟩
                confidence := .medium } :: detectPercentageGo text row fuel (absPos + 1)
            | none => detectPercentageGo text row fuel (absPos + 1)
    else []

/-- Percentage-text detection over one row (`detect_percentage_text`). -/
def detectPercentageText (text : List Char) (row : Nat) : List DetectedElement :=
  detectPercentageGo text row (text.length + 1) 0

/-- A successfully parsed slice is nonempty and made of digits and dots. -/
theorem parseDecimal?_props {l : List Char} {num den : Nat}
    (h : parseDecimal? l = some (num, den)) :
    l ≠ [] ∧ (∀ c ∈ l, (c.isDigit || c = '.') = true) := by
  unfold parseDecimal? at h
  split at h
  · cases h
  · split at h
    · rename_i hne hcond
      simp only [Bool.and_eq_true, List.all_eq_true, decide_eq_true_eq] at hcond
      refine ⟨?_, hcond.1.1⟩
      simpa [List.isEmpty_iff] using hne
    · cases h

/-- `findCharFrom` on an append whose left part has no match finds the
first match of the right part. -/
theorem findCharFrom_append_first {p : Char → Bool} {l1 l2 : List Char} {x : Char}
    (h1 : ∀ c ∈ l1, p c = false) (hx : p x = true) :
    findCharFrom p (l1 ++ x :: l2) = some l1.length := by
  induction l1 with
  | nil => simp [findCharFrom, hx]
  | cons c tl ih =>
    simp only [List.cons_append, findCharFrom, List.append_eq]
    rw [if_neg (by simp [h1 c (by simp)])]
    rw [ih (fun d hd => h1 d (by simp [hd]))]
    rfl

/-- `rfindChar` finds nothing when no character matches. -/
theorem rfindChar_eq_none {p : Char → Bool} {l : List Char}
    (h : ∀ c ∈ l, p c = false) : rfindChar p l = none := by
  induction l with
  | nil => rfl
  | cons c tl ih =>
    simp only [rfindChar]
    rw [ih (fun d hd => h d (by simp [hd]))]
    simp [h c (by simp)]

/-- Appending a match-free suffix does not change `rfindChar`. -/
theorem rfindChar_append_right_none {p : Char → Bool} {l1 l2 : List Char}
    (h2 : ∀ c ∈ l2, p c = false) :
    rfindChar p (l1 ++ l2) = rfindChar p l1 := by
  induction l1 with
  | nil => simp [rfindChar_eq_none h2, rfindChar]
  | cons c tl ih =>
    simp only [List.cons_append, rfindChar, List.append_eq]
    rw [ih]

/-- `rfindChar` on a list ending in a matching character returns the
index of that last character. -/
theorem rfindChar_concat_true {p : Char → Bool} {l : List Char} {a : Char}
    (ha : p a = true) : rfindChar p (l ++ [a]) = some l.length := by
  induction l with
  | nil => simp [rfindChar, ha]
  | cons c tl ih =>
    simp only [List.cons_append, rfindChar, List.append_eq]
    rw [ih]
    rfl

/-- The code's percent value is the rational floor of `n/d` clamped at 100. -/
theorem percentCast_eq (n d : Nat) :
    percentCast n d = min 100 ⌊(n : ℚ) / d⌋₊ := by
  rw [Nat.floor_div_nat]
  exact min_comm _ _

/-- C8 counterexample: on the row text `45.5%` the detector emits a
ProgressBar with percent 45 — the `as u8` cast truncates the parsed
value 45.5 — whereas the claimed `min(100, round(value))` is 46
(`round` rounds 45.5 up), so the claim's percent formula is wrong. -/
theorem c8_percentage_counterexample :
    detectPercentageText "45.5%".data 0 =
      [{ element := Element.progressBar "progress_0_0" ⟨0, 0, 5, 1⟩ 45
         bounds := ⟨0, 0, 5, 1⟩
         confidence := .medium }] ∧
    parseDecimal? "45.5".data = some (455, 10) ∧
    min 100 (round ((455 : ℚ) / 10)).toNat = 46 ∧ (45 : Nat) ≠ 46 := by
  refine ⟨by decide, by decide, ?_, by decide⟩
  rw [round_eq]
  norm_num
  decide

/-- C8 (amended): for every row text of the form `pre ++ ds ++ '%' ++ suf`
where `ds` parses as a decimal number `num/den` with at most one
fractional digit, `pre` is ASCII, contains no `%` and does not end in a
digit or dot, and row and positions fit in the source's `u16`/`f32`
ranges, the first element the percentage-text strategy emits is a
ProgressBar whose percent is `min(100, floor(num/den))` — the `as u8`
cast truncates, it does not round — and whose bounds span the digits
through the `%`: row `row`, column `pre.length`, width `ds.length + 1`,
height 1.  The hypotheses delimit where the embedding is exact:
`hascii` makes byte indices and `char::is_numeric` coincide with
character indices and `Char.isDigit` on everything before the matched
`%`, `hfrac` keeps `str::parse::<f32>` within the range where clamping
and truncating it equals the clamped exact floor, and `hrow`/`hlen` make
the source's `as u16` casts lossless. -/
theorem c8_percentage_truncation (pre ds suf : List Char) (row num den : Nat)
    (hds : parseDecimal? ds = some (num, den))
    (hfrac : ((ds.dropWhile (· ≠ '.')).drop 1).length ≤ 1)
    (hascii : ∀ c ∈ pre, c.toNat ≤ 127)
    (hlast : ∀ c, pre.getLast? = some c → (c.isDigit || c = '.') = false)
    (hnopct : '%' ∉ pre)
    (hrow : row < 65536) (hlen : pre.length + ds.length < 65535) :
    (detectPercentageText (pre ++ ds ++ '%' :: suf) row).head? =
      some { element := .progressBar
               ("progress_" ++ toString row ++ "_" ++ toString pre.length)
               ⟨row, pre.length, ds.length + 1, 1⟩ (min 100 ⌊(num : ℚ) / den⌋₊)
             bounds := ⟨row, pre.length, ds.length + 1, 1⟩
             confidence := .medium } := by
  obtain ⟨hdsne, hdsall⟩ := parseDecimal?_props hds
  have hdsnopct : ∀ c ∈ ds, (decide (c = '%')) = false := by
    intro c hc
    have := hdsall c hc
    rcases Bool.or_eq_true _ _ |>.mp this with hd | hd
    · simp only [decide_eq_false_iff_not]
      intro hcp
      subst hcp
      simp at hd
    · simp only [decide_eq_true_eq] at hd
      subst hd
      simp
  have hprenopct : ∀ c ∈ pre, (decide (c = '%')) = false := by
    intro c hc
    simp only [decide_eq_false_iff_not]
    intro hcp
    subst hcp
    exact hnopct hc
  unfold detectPercentageText
  rw [detectPercentageGo]
  rw [if_pos (Nat.zero_le _)]
  rw [List.drop_zero]
  rw [findCharFrom_append_first
    (fun c hc => by
      rcases List.mem_append.mp hc with hc | hc
      · exact hprenopct c hc
      · exact hdsnopct c hc)
    (by simp)]
  dsimp only
  simp only [Nat.zero_add]
  rw [List.take_left]
  have hdsnotnum : ∀ c ∈ ds, (!(c.isDigit || c = '.')) = false := by
    intro c hc
    simp [hdsall c hc]
  rcases List.eq_nil_or_concat pre with hpre | ⟨L, b, hpre⟩
  · subst hpre
    simp only [List.nil_append]
    rw [rfindChar_eq_none hdsnotnum]
    rw [if_neg (by simpa [List.isEmpty_iff] using hdsne)]
    rw [hds]
    simp only [List.head?_cons, List.length_nil, Nat.zero_add]
    rw [percentCast_eq]
    simp only [String.append_assoc]
    rfl
  · subst hpre
    simp only [List.concat_eq_append] at *
    rw [rfindChar_append_right_none hdsnotnum]
    have hb : (!(b.isDigit || b = '.')) = true := by
      have := hlast b (by simp)
      simp [this]
    rw [rfindChar_concat_true hb]
    dsimp only
    rw [show L.length + 1 = (L ++ [b]).length from by simp]
    rw [List.drop_left]
    rw [hds]
    simp only [List.head?_cons]
    rw [percentCast_eq]
    have hw : (L ++ [b] ++ ds).length - L.length = ds.length + 1 := by
      simp only [List.length_append, List.length_cons, List.length_nil]
      omega
    rw [hw]

/-- The amended C8 theorem at the concrete row text `Progress: 75% done`
in row 3: `parseDecimal?` yields 75/1 and the emitted ProgressBar sits
at column 10 with width 3 and percent `min 100 75 = 75`. -/
theorem c8_percentage_truncation_witness :
    (detectPercentageText ("Progress: ".data ++ "75".data ++ '%' :: " done".data) 3).head? =
      some { element := .progressBar
               ("progress_" ++ toString 3 ++ "_" ++ toString "Progress: ".data.length)
               ⟨3, "Progress: ".data.length, "75".data.length + 1, 1⟩
               (min 100 ⌊(75 : ℚ) / 1⌋₊)
             bounds := ⟨3, "Progress: ".data.length, "75".data.length + 1, 1⟩
             confidence := .medium } :=
  c8_percentage_truncation "Progress: ".data "75".data " done".data 3 75 1
    (by decide) (by decide) (by decide)
    (fun c hc => by
      rw [show ("Progress: ".data).getLast? = some ' ' from by decide] at hc
      cases hc
      decide)
    (by decide) (by decide) (by decide)

end TerminalMcp
